import Mathlib

/-!
Verification of the drag-and-drop canvas layout/interaction engine.

Shallow embedding of `src/drag_drop_canvas.rs` (crate `rust-canvas`).

Modelling conventions:
* `f32` values are modelled by `Rat` (exact rational arithmetic); every
  arithmetic operation used by the embedded code (addition, subtraction,
  multiplication, division by constants, `min`/`max`/`clamp`, comparisons)
  is exact on the magnitudes involved.
* Euclidean lengths are only ever compared against constant thresholds in
  the source (`length() <= 32.0`, `length() < 5.0`), so the embedding
  compares squared lengths against squared thresholds, which is equivalent
  for nonnegative quantities.
* `egui::Rect::NOTHING` (a rectangle with infinite coordinates, used by the
  source only as a sentinel compared with `!=`) is modelled by a sentinel
  rectangle with coordinates of magnitude `10^9`, since `Rat` has no
  infinities.  No claim exercises arithmetic on the sentinel.
* The modules `canvas::constants` and `canvas::panels` (`PanelManager`) are
  referenced by `drag_drop_canvas.rs` but are not part of the sources under
  `src/`; the corresponding constants and functions are modelled from the
  spec and are marked `Modelled from the spec:` in their doc comments.
-/

namespace Canvas2D

/-- 2D point with rational coordinates, mirroring `egui::Pos2`. -/
structure Pos2 where
  x : Rat
  y : Rat
deriving DecidableEq, Repr

/-- 2D vector with rational coordinates, mirroring `egui::Vec2`. -/
structure Vec2 where
  x : Rat
  y : Rat
deriving DecidableEq, Repr

instance : HSub Pos2 Pos2 Vec2 where
  hSub a b := ⟨a.x - b.x, a.y - b.y⟩

instance : HSub Pos2 Vec2 Pos2 where
  hSub a v := ⟨a.x - v.x, a.y - v.y⟩

instance : HAdd Pos2 Vec2 Pos2 where
  hAdd a v := ⟨a.x + v.x, a.y + v.y⟩

/-- Squared Euclidean length of a vector (`Vec2::length` is only compared
against constant thresholds in the source, so the squared form suffices). -/
def Vec2.lengthSq (v : Vec2) : Rat := v.x * v.x + v.y * v.y

/-- Axis-aligned rectangle stored as min/max corners, mirroring `egui::Rect`. -/
structure Rect where
  min : Pos2
  max : Pos2
deriving DecidableEq, Repr

namespace Rect

/-- `Rect::from_min_size`. -/
def fromMinSize (p : Pos2) (s : Vec2) : Rect := ⟨p, p + s⟩

/-- `Rect::from_min_max`. -/
def fromMinMax (a b : Pos2) : Rect := ⟨a, b⟩

/-- `Rect::from_center_size`. -/
def fromCenterSize (c : Pos2) (s : Vec2) : Rect :=
  ⟨⟨c.x - s.x / 2, c.y - s.y / 2⟩, ⟨c.x + s.x / 2, c.y + s.y / 2⟩⟩

def left (r : Rect) : Rat := r.min.x
def right (r : Rect) : Rat := r.max.x
def top (r : Rect) : Rat := r.min.y
def bottom (r : Rect) : Rat := r.max.y
def width (r : Rect) : Rat := r.max.x - r.min.x
def height (r : Rect) : Rat := r.max.y - r.min.y

/-- `Rect::center`. -/
def center (r : Rect) : Pos2 := ⟨(r.min.x + r.max.x) / 2, (r.min.y + r.max.y) / 2⟩

/-- `Rect::expand` (grow by `a` on every side). -/
def expand (r : Rect) (a : Rat) : Rect :=
  ⟨⟨r.min.x - a, r.min.y - a⟩, ⟨r.max.x + a, r.max.y + a⟩⟩

/-- `Rect::contains` (inclusive on all four edges, as in egui). -/
def containsPt (r : Rect) (p : Pos2) : Bool :=
  decide (r.min.x ≤ p.x ∧ p.x ≤ r.max.x ∧ r.min.y ≤ p.y ∧ p.y ≤ r.max.y)

/-- `Rect::intersects` (inclusive, as in egui). -/
def intersects (r o : Rect) : Bool :=
  decide (r.min.x ≤ o.max.x ∧ o.min.x ≤ r.max.x ∧ r.min.y ≤ o.max.y ∧ o.min.y ≤ r.max.y)

/-- Sentinel standing for `egui::Rect::NOTHING` (see the module comment). -/
def NOTHING : Rect := ⟨⟨1000000000, 1000000000⟩, ⟨-1000000000, -1000000000⟩⟩

end Rect

/-- Rust `f32::clamp` for the call sites in the source, where the lower
bound never exceeds the upper bound. -/
def clampQ (x lo hi : Rat) : Rat := min (max x lo) hi

/-- Truncation toward zero, modelling Rust `as i32` / `as usize` casts. -/
def truncToInt (q : Rat) : Int := if 0 ≤ q then q.floor else -((-q).floor)

/-- Modelled from the spec: inner margin of a panel's content area
(constant `PANEL_MARGIN` lives in `canvas::constants`, not under `src/`). -/
def PANEL_MARGIN : Rat := 10

/-- Modelled from the spec: height of a panel's title bar (constant
`PANEL_TITLE_HEIGHT` lives in `canvas::constants`, not under `src/`; the
collapse logic in `drag_drop_canvas.rs` uses the literal `40.0` for the
same quantity). -/
def PANEL_TITLE_HEIGHT : Rat := 40

/-- Modelled from the spec: margin of the usable canvas area (constant
`CANVAS_MARGIN` lives in `canvas::constants`, not under `src/`). -/
def CANVAS_MARGIN : Rat := 20

/-- Modelled from the spec: grid pitch of canvas placement (constant
`GRID_SPACING` lives in `canvas::constants`, not under `src/`).  The spec
asks for one widget slot per step, so the pitch is taken wider than the
widest small widget (a knob, 104 px). -/
def GRID_SPACING : Rat := 130

/-- Modelled from the spec: grid pitch used for widgets laid out inside a
panel (constant `WIDGET_SPACING_IN_PANEL` lives in `canvas::constants`, not
under `src/`). -/
def WIDGET_SPACING_IN_PANEL : Rat := 70

/-- Color themes (`WidgetColor`). -/
inductive WidgetColor where
  | Cyan | Pink | Green | Yellow | Red
deriving DecidableEq, Repr

/-- Icon variants (`IconType`). -/
inductive IconType where
  | Power | Play | Pause | SkipBack | SkipForward
  | Volume | Mic | Settings | Mute | Zap
deriving DecidableEq, Repr

/-- All supported widget types with their configuration parameters
(`WidgetType`). -/
inductive WidgetType where
  | Knob (value vmin vmax : Rat) (label : String) (color : WidgetColor)
  | ToggleSwitch (isOn : Bool) (label : String) (color : WidgetColor) (glow : Bool)
  | PushButton (active : Bool) (icon label : String) (color : WidgetColor) (size : Rat)
  | VuMeter (level peakLevel : Rat) (label : String) (color : WidgetColor)
  | HorizontalSlider (value vmin vmax : Rat) (label : String) (color : WidgetColor)
  | VerticalSlider (value vmin vmax : Rat) (label : String) (color : WidgetColor)
  | LevelIndicator (level : Rat) (segments : Nat) (label : String)
  | TextLabel (text : String) (size : Rat) (color : WidgetColor)
  | Panel (title : String) (color : WidgetColor) (width height : Rat)
      (collapsed : Bool) (containedWidgets : List Nat) (minimizeToSettingsIcon : Bool)
  | StatusBar (cpu ram latency : Rat) (online : Bool)
  | IconButton (icon : IconType) (label : String) (active : Bool)
      (color : WidgetColor) (size : Rat)
  | Settings (label : String) (color : WidgetColor) (minimized : Bool)
      (containedWidgets : List Nat)
deriving DecidableEq, Repr

/-- A widget instance with position, size, and type information
(`DraggableWidget`). -/
structure DraggableWidget where
  id : Nat
  widgetType : WidgetType
  position : Pos2
  size : Vec2
deriving DecidableEq, Repr

namespace DraggableWidget

/-- `DraggableWidget::calculate_size`. -/
def calculateSize : WidgetType → Vec2
  | .Knob .. => ⟨104, 124⟩
  | .ToggleSwitch .. => ⟨68, 49⟩
  | .PushButton _ _ _ _ size => ⟨size + 10, size + 30⟩
  | .VuMeter .. => ⟨26, 158⟩
  | .HorizontalSlider .. => ⟨176, 28⟩
  | .VerticalSlider .. => ⟨28, 146⟩
  | .LevelIndicator .. => ⟨120, 40⟩
  | .TextLabel _ size _ => ⟨size * 8, size * (3/2)⟩
  | .Panel _ _ width height collapsed _ minimizeToSettingsIcon =>
      if collapsed then
        if minimizeToSettingsIcon then ⟨40, 40⟩ else ⟨width, 40⟩
      else ⟨width, height⟩
  | .StatusBar .. => ⟨400, 60⟩
  | .IconButton _ _ _ _ size => ⟨size + 10, size + 30⟩
  | .Settings _ _ minimized _ => if minimized then ⟨40, 40⟩ else ⟨250, 300⟩

/-- `DraggableWidget::new`. -/
def new (id : Nat) (wt : WidgetType) (position : Pos2) : DraggableWidget :=
  { id := id, widgetType := wt, position := position, size := calculateSize wt }

/-- `DraggableWidget::get_rect`. -/
def getRect (w : DraggableWidget) : Rect := Rect.fromMinSize w.position w.size

/-- The `contained_widgets` list of a `Panel`/`Settings`, `[]` otherwise. -/
def containedList (w : DraggableWidget) : List Nat :=
  match w.widgetType with
  | .Panel _ _ _ _ _ contained _ => contained
  | .Settings _ _ _ contained => contained
  | _ => []

end DraggableWidget

/-- Alignment guide orientations (`AlignmentType`). -/
inductive AlignmentType where
  | CenterHorizontal | CenterVertical | WidgetAlignHorizontal | WidgetAlignVertical
deriving DecidableEq, Repr

/-- A visual alignment guide (`AlignmentGuide`). -/
structure AlignmentGuide where
  start : Pos2
  stop : Pos2
  guideType : AlignmentType
deriving DecidableEq, Repr

/-- Full canvas state (`DragDropCanvas`). -/
structure Canvas where
  widgets : List DraggableWidget
  nextId : Nat
  canvasRect : Rect
  editingWidget : Option Nat
  showEditWindow : Bool
  selectedPanel : Option Nat
  pendingWidget : Option WidgetType
  draggingWidget : Option Nat
  dragOffset : Vec2
  interactingWidget : Option Nat
  lastMousePos : Option Pos2
  resizingWidget : Option Nat
  resizeStartSize : Vec2
  paletteDragging : Option WidgetType
  paletteDragPos : Option Pos2
  alignmentGuides : List AlignmentGuide
  dragHoverPanel : Option Nat
  needsRepositioning : Bool

/-- `DragDropCanvas::default`. -/
def Canvas.default : Canvas where
  widgets := []
  nextId := 0
  canvasRect := Rect.NOTHING
  editingWidget := none
  showEditWindow := false
  selectedPanel := none
  pendingWidget := none
  draggingWidget := none
  dragOffset := ⟨0, 0⟩
  interactingWidget := none
  lastMousePos := none
  resizingWidget := none
  resizeStartSize := ⟨0, 0⟩
  paletteDragging := none
  paletteDragPos := none
  alignmentGuides := []
  dragHoverPanel := none
  needsRepositioning := false

end Canvas2D

namespace Canvas2D

/-- Replace the element at index `i` by `f` applied to it (helper for the
source's `self.widgets.get_mut(idx)` updates). -/
def listModify (f : DraggableWidget → DraggableWidget) :
    Nat → List DraggableWidget → List DraggableWidget
  | _, [] => []
  | 0, w :: ws => f w :: ws
  | n + 1, w :: ws => w :: listModify f n ws

/-- Modelled from the spec (`PanelManager::is_panel_accepting_widgets`, in
the missing `canvas::panels` module): true iff the widget is a
Panel/SettingsPanel and not collapsed/minimized. -/
def isPanelAcceptingWidgets (w : DraggableWidget) : Bool :=
  match w.widgetType with
  | .Panel _ _ _ _ collapsed _ _ => !collapsed
  | .Settings _ _ minimized _ => !minimized
  | _ => false

/-- Modelled from the spec (`PanelManager::add_widget_to_panel`):
`addChild` appends the id to the container's id set and silently does
nothing if the container does not accept widgets. -/
def addWidgetToPanel (ws : List DraggableWidget) (panelIdx widgetId : Nat) :
    List DraggableWidget :=
  listModify (fun w =>
    match w.widgetType with
    | .Panel t c wd ht false contained m =>
        { w with widgetType := .Panel t c wd ht false (contained ++ [widgetId]) m }
    | .Settings l c false contained =>
        { w with widgetType := .Settings l c false (contained ++ [widgetId]) }
    | _ => w) panelIdx ws

/-- Modelled from the spec (`PanelManager::remove_widget_from_containers`):
removes the id from every container's id set. -/
def removeWidgetFromContainers (ws : List DraggableWidget) (widgetId : Nat) :
    List DraggableWidget :=
  ws.map (fun w =>
    match w.widgetType with
    | .Panel t c wd ht col contained m =>
        { w with widgetType := .Panel t c wd ht col (contained.filter (· ≠ widgetId)) m }
    | .Settings l c mi contained =>
        { w with widgetType := .Settings l c mi (contained.filter (· ≠ widgetId)) }
    | _ => w)

/-- Modelled from the spec (`PanelManager::find_widget_container_panel`):
`containerOf` — the nearest enclosing Panel/SettingsPanel whose id set
includes the widget at index `idx`; returns the container's index. -/
def findWidgetContainerPanel (ws : List DraggableWidget) (idx : Nat) : Option Nat :=
  match ws.get? idx with
  | none => none
  | some w => (ws.enum.find? (fun p => decide (w.id ∈ p.2.containedList))).map (·.1)

/-- Modelled from the spec (`PanelManager::find_widget_container_panel_id`):
as `containerOf`, keyed and returning by widget id. -/
def findWidgetContainerPanelId (ws : List DraggableWidget) (widgetId : Nat) : Option Nat :=
  (ws.find? (fun p => decide (widgetId ∈ p.containedList))).map (·.id)

/-- Modelled from the spec (`PanelManager::find_panel_under_position`): the
topmost (last-rendered) accepting container whose rectangle contains the
position, used for drag-hover feedback. -/
def findPanelUnderPosition (ws : List DraggableWidget) (pos : Pos2) : Option Nat :=
  (ws.reverse.find? (fun w => isPanelAcceptingWidgets w && w.getRect.containsPt pos)).map (·.id)

/-- `DragDropCanvas::is_widget_contained`. -/
def Canvas.isWidgetContained (c : Canvas) (widgetId : Nat) : Bool :=
  c.widgets.any (fun panel => decide (widgetId ∈ panel.containedList))

/-- `DragDropCanvas::count_canvas_widgets`. -/
def Canvas.countCanvasWidgets (c : Canvas) : Nat :=
  (c.widgets.filter (fun w =>
    !(c.widgets.any (fun panel => decide (w.id ∈ panel.containedList))))).length

/-- `DragDropCanvas::calculate_grid_position`. -/
def Canvas.calculateGridPosition (c : Canvas) (gridIndex : Nat) (wt : WidgetType) : Pos2 :=
  let widgetSize := DraggableWidget.calculateSize wt
  let canvasRect := if c.canvasRect = Rect.NOTHING
    then Rect.fromMinSize ⟨0, 0⟩ ⟨800, 600⟩ else c.canvasRect
  let usableStartX := canvasRect.min.x + CANVAS_MARGIN
  let usableStartY := canvasRect.min.y + CANVAS_MARGIN
  let usableEndX := max (canvasRect.max.x - CANVAS_MARGIN) (usableStartX + 100)
  let usableEndY := max (canvasRect.max.y - CANVAS_MARGIN) (usableStartY + 100)
  let availableWidth := usableEndX - usableStartX
  let widgetsPerRow := (truncToInt (max (availableWidth / GRID_SPACING) 1)).toNat
  let row := gridIndex / widgetsPerRow
  let col := gridIndex % widgetsPerRow
  let x := usableStartX + (col : Rat) * GRID_SPACING
  let y := usableStartY + (row : Rat) * GRID_SPACING
  let maxX := max (usableEndX - widgetSize.x) usableStartX
  let maxY := max (usableEndY - widgetSize.y) usableStartY
  ⟨min x maxX, min y maxY⟩

/-- `DragDropCanvas::add_widget`: when the canvas rectangle is known the
position is computed by the grid layout, otherwise the safe default (50,50)
is used and the canvas is marked for repositioning. -/
def Canvas.addWidget (c : Canvas) (wt : WidgetType) (_position : Pos2) : Canvas :=
  let position :=
    if c.canvasRect = Rect.NOTHING then (⟨50, 50⟩ : Pos2)
    else c.calculateGridPosition c.countCanvasWidgets wt
  let c := if c.canvasRect = Rect.NOTHING then { c with needsRepositioning := true } else c
  let w := DraggableWidget.new c.nextId wt position
  { c with widgets := c.widgets ++ [w], nextId := c.nextId + 1 }

/-- `DragDropCanvas::find_first_available_spot`. -/
def Canvas.findFirstAvailableSpot (c : Canvas) (widgetSize : Vec2)
    (existingWidgetIds : List Nat) (bounds : Rect) : Pos2 :=
  let padding : Rat := 1
  let startX := bounds.left + PANEL_MARGIN
  let startY := bounds.top + PANEL_TITLE_HEIGHT
  let yLo := truncToInt startY
  let yHi := truncToInt (bounds.bottom - PANEL_MARGIN - widgetSize.y)
  let xLo := truncToInt startX
  let xHi := truncToInt (bounds.right - PANEL_MARGIN - widgetSize.x)
  let ys := (List.range (((yHi - yLo).toNat + 19) / 20)).map (fun k => yLo + 20 * (k : Int))
  let xs := (List.range (((xHi - xLo).toNat + 19) / 20)).map (fun k => xLo + 20 * (k : Int))
  let candidates := ys.flatMap (fun y => xs.map (fun x => (⟨(x : Rat), (y : Rat)⟩ : Pos2)))
  let found := candidates.find? (fun testPos =>
    let testRect := Rect.fromMinSize testPos widgetSize
    !(existingWidgetIds.any (fun wid =>
      match c.widgets.find? (fun w => w.id = wid) with
      | some existing => (existing.getRect.expand padding).intersects testRect
      | none => false)))
  match found with
  | some p => p
  | none => ⟨startX, startY⟩

/-- `DragDropCanvas::find_non_overlapping_position`. -/
def Canvas.findNonOverlappingPosition (c : Canvas) (preferredPos : Pos2)
    (widgetSize : Vec2) (existingWidgetIds : List Nat) (bounds : Rect) : Pos2 :=
  let padding : Rat := 1
  let testRect := Rect.fromMinSize preferredPos widgetSize
  let hit := existingWidgetIds.findSome? (fun wid =>
    match c.widgets.find? (fun w => w.id = wid) with
    | some existing =>
        let existingRect := existing.getRect.expand padding
        if existingRect.intersects testRect then some existingRect else none
    | none => none)
  match hit with
  | none => preferredPos
  | some existingRect =>
      let tx := existingRect.right + padding
      if tx + widgetSize.x > bounds.right - PANEL_MARGIN then
        let ty := existingRect.bottom + padding
        if ty + widgetSize.y > bounds.bottom - PANEL_MARGIN then
          c.findFirstAvailableSpot widgetSize existingWidgetIds bounds
        else ⟨preferredPos.x, ty⟩
      else ⟨tx, preferredPos.y⟩

/-- `DragDropCanvas::add_widget_to_selected_panel`. -/
def Canvas.addWidgetToSelectedPanel (c : Canvas) (wt : WidgetType) (clickPos : Pos2) :
    Canvas :=
  match c.selectedPanel with
  | some panelId =>
    match c.widgets.enum.find? (fun p => p.2.id = panelId) with
    | some (panelIdx, panel) =>
      if isPanelAcceptingWidgets panel then
        let panelRect := panel.getRect
        let widgetSize := DraggableWidget.calculateSize wt
        let desiredX := max clickPos.x (panelRect.left + PANEL_MARGIN)
        let desiredY := max clickPos.y (panelRect.top + PANEL_TITLE_HEIGHT)
        let maxX := panelRect.right - PANEL_MARGIN - widgetSize.x
        let maxY := panelRect.bottom - PANEL_MARGIN - widgetSize.y
        let finalPos : Pos2 := ⟨min desiredX maxX, min desiredY maxY⟩
        let panelWidgetIds := panel.containedList
        let finalPos := c.findNonOverlappingPosition finalPos widgetSize panelWidgetIds panelRect
        let w := DraggableWidget.new c.nextId wt finalPos
        let widgetId := w.id
        let c := { c with widgets := c.widgets ++ [w], nextId := c.nextId + 1 }
        { c with widgets := addWidgetToPanel c.widgets panelIdx widgetId }
      else
        Canvas.addWidget { c with selectedPanel := none } wt clickPos
    | none =>
      Canvas.addWidget { c with selectedPanel := none } wt clickPos
  | none => Canvas.addWidget c wt clickPos

/-- `DragDropCanvas::clear_canvas`. -/
def Canvas.clearCanvas (c : Canvas) : Canvas := { c with widgets := [] }

/-- The delete command of `DragDropCanvas::show_edit_window` (lines
2126-2138): remove the edited widget from the widget list and close the
editor.  No other state is touched. -/
def Canvas.deleteEditedWidget (c : Canvas) : Canvas :=
  match c.editingWidget with
  | some idx =>
      { c with widgets := c.widgets.eraseIdx idx,
               editingWidget := none, showEditWindow := false }
  | none => c

end Canvas2D

namespace Canvas2D

/-- `DragDropCanvas::handle_knob_interaction`. -/
def Canvas.handleKnobInteraction (c : Canvas) (widgetIdx : Nat) (deltaY : Rat) : Canvas :=
  { c with widgets := listModify (fun w =>
      match w.widgetType with
      | .Knob value vmin vmax label color =>
          let sensitivity : Rat := 1/2
          let range := vmax - vmin
          let deltaValue := deltaY * sensitivity / 100 * range
          { w with widgetType := .Knob (clampQ (value + deltaValue) vmin vmax) vmin vmax label color }
      | _ => w) widgetIdx c.widgets }

/-- `DragDropCanvas::handle_widget_interaction`.

The `Knob` arm of the source computes a value from `atan2` of the pointer
offset; that arm is unreachable from every call site in the module (the
press handler only calls this function for the `Panel` collapse triangle,
the single-click handler excludes `Knob`, and the release handler only
calls it for `ToggleSwitch`/`PushButton`/`IconButton`), and its
trigonometry has no exact rational form, so it is modelled as leaving the
widget unchanged. -/
def Canvas.handleWidgetInteraction (c : Canvas) (widgetIdx : Nat) (mousePos : Pos2) :
    Canvas :=
  match c.widgets.get? widgetIdx with
  | none => c
  | some w0 =>
    match w0.widgetType with
    | .Panel _ _ width height _ _ minimizeToSettingsIcon =>
      let currentWidth := width
      let currentHeight := height
      let isSettingsIcon := minimizeToSettingsIcon
      { c with widgets := listModify (fun w =>
          match w.widgetType with
          | .Panel t col wd ht collapsed contained m =>
            let collapsed := !collapsed
            let newSize : Vec2 :=
              if collapsed then
                if isSettingsIcon then ⟨40, 40⟩ else ⟨currentWidth, 40⟩
              else ⟨currentWidth, currentHeight⟩
            { w with widgetType := .Panel t col wd ht collapsed contained m,
                     size := newSize }
          | _ => w) widgetIdx c.widgets }
    | _ =>
      { c with widgets := listModify (fun w =>
          let rect := w.getRect
          match w.widgetType with
          | .Knob .. => w
          | .ToggleSwitch isOn label color glow =>
              { w with widgetType := .ToggleSwitch (!isOn) label color glow }
          | .PushButton active icon label color size =>
              { w with widgetType := .PushButton (!active) icon label color size }
          | .IconButton icon label active color size =>
              { w with widgetType := .IconButton icon label (!active) color size }
          | .HorizontalSlider _value vmin vmax label color =>
              let sliderRect := Rect.fromCenterSize
                ⟨rect.center.x + 10, rect.center.y⟩ ⟨96, 8⟩
              if sliderRect.containsPt mousePos then
                let normalized := clampQ ((mousePos.x - sliderRect.left) / sliderRect.width) 0 1
                { w with widgetType :=
                    .HorizontalSlider (normalized * (vmax - vmin) + vmin) vmin vmax label color }
              else w
          | .VerticalSlider _value vmin vmax label color =>
              let sliderRect := Rect.fromCenterSize
                ⟨rect.center.x, rect.center.y - 10⟩ ⟨8, 96⟩
              if sliderRect.containsPt mousePos then
                let normalized := 1 - clampQ ((mousePos.y - sliderRect.top) / sliderRect.height) 0 1
                { w with widgetType :=
                    .VerticalSlider (normalized * (vmax - vmin) + vmin) vmin vmax label color }
              else w
          | .StatusBar cpu ram latency online =>
              { w with widgetType := .StatusBar cpu ram latency (!online) }
          | _ => w) widgetIdx c.widgets }

/-- `DragDropCanvas::calculate_alignment_guides`. -/
def Canvas.calculateAlignmentGuides (c : Canvas) (draggingIdx : Nat)
    (position : Pos2) (size : Vec2) : Canvas :=
  let threshold : Rat := 8
  let canvasCenterX := c.canvasRect.center.x
  let canvasCenterY := c.canvasRect.center.y
  let widgetCenterX := position.x + size.x / 2
  let widgetCenterY := position.y + size.y / 2
  let canvasGuides : List AlignmentGuide :=
    (if |widgetCenterX - canvasCenterX| < threshold then
      [⟨⟨canvasCenterX, c.canvasRect.min.y⟩, ⟨canvasCenterX, c.canvasRect.max.y⟩,
        .CenterHorizontal⟩] else []) ++
    (if |widgetCenterY - canvasCenterY| < threshold then
      [⟨⟨c.canvasRect.min.x, canvasCenterY⟩, ⟨c.canvasRect.max.x, canvasCenterY⟩,
        .CenterVertical⟩] else [])
  let widgetGuides : List AlignmentGuide := c.widgets.enum.flatMap (fun p =>
    if p.1 = draggingIdx then [] else
    let other := p.2
    let otherCenterX := other.position.x + other.size.x / 2
    let otherCenterY := other.position.y + other.size.y / 2
    (if |widgetCenterX - otherCenterX| < threshold then
      [⟨⟨otherCenterX, min other.position.y position.y - 20⟩,
        ⟨otherCenterX, max (other.position.y + other.size.y) (position.y + size.y) + 20⟩,
        .WidgetAlignHorizontal⟩] else []) ++
    (if |widgetCenterY - otherCenterY| < threshold then
      [⟨⟨min other.position.x position.x - 20, otherCenterY⟩,
        ⟨max (other.position.x + other.size.x) (position.x + size.x) + 20, otherCenterY⟩,
        .WidgetAlignVertical⟩] else []) ++
    (if |position.x - other.position.x| < threshold then
      [⟨⟨other.position.x, min other.position.y position.y - 20⟩,
        ⟨other.position.x, max (other.position.y + other.size.y) (position.y + size.y) + 20⟩,
        .WidgetAlignHorizontal⟩] else []) ++
    (if |position.x + size.x - (other.position.x + other.size.x)| < threshold then
      [⟨⟨other.position.x + other.size.x, min other.position.y position.y - 20⟩,
        ⟨other.position.x + other.size.x,
          max (other.position.y + other.size.y) (position.y + size.y) + 20⟩,
        .WidgetAlignHorizontal⟩] else []) ++
    (if |position.y - other.position.y| < threshold then
      [⟨⟨min other.position.x position.x - 20, other.position.y⟩,
        ⟨max (other.position.x + other.size.x) (position.x + size.x) + 20, other.position.y⟩,
        .WidgetAlignVertical⟩] else []) ++
    (if |position.y + size.y - (other.position.y + other.size.y)| < threshold then
      [⟨⟨min other.position.x position.x - 20, other.position.y + other.size.y⟩,
        ⟨max (other.position.x + other.size.x) (position.x + size.x) + 20,
          other.position.y + other.size.y⟩,
        .WidgetAlignVertical⟩] else []))
  { c with alignmentGuides := canvasGuides ++ widgetGuides }

/-- One other-widget step of `DragDropCanvas::apply_snapping`: the six
independent overrides against widget `other`, all conditioned on the
original candidate `position`. -/
def snapAgainst (position : Pos2) (size : Vec2) (other : DraggableWidget)
    (finalPos : Pos2) : Pos2 :=
  let snapThreshold : Rat := 8
  let otherCenterX := other.position.x + other.size.x / 2
  let otherCenterY := other.position.y + other.size.y / 2
  let fx := if |position.x + size.x / 2 - otherCenterX| < snapThreshold
    then otherCenterX - size.x / 2 else finalPos.x
  let fy := if |position.y + size.y / 2 - otherCenterY| < snapThreshold
    then otherCenterY - size.y / 2 else finalPos.y
  let fx := if |position.x - other.position.x| < snapThreshold
    then other.position.x else fx
  let fx := if |position.x + size.x - (other.position.x + other.size.x)| < snapThreshold
    then other.position.x + other.size.x - size.x else fx
  let fy := if |position.y - other.position.y| < snapThreshold
    then other.position.y else fy
  let fy := if |position.y + size.y - (other.position.y + other.size.y)| < snapThreshold
    then other.position.y + other.size.y - size.y else fy
  ⟨fx, fy⟩

/-- `DragDropCanvas::apply_snapping`. -/
def Canvas.applySnapping (c : Canvas) (draggingIdx : Nat) (position : Pos2)
    (size : Vec2) : Pos2 :=
  let snapThreshold : Rat := 8
  let fx := if |position.x + size.x / 2 - c.canvasRect.center.x| < snapThreshold
    then c.canvasRect.center.x - size.x / 2 else position.x
  let fy := if |position.y + size.y / 2 - c.canvasRect.center.y| < snapThreshold
    then c.canvasRect.center.y - size.y / 2 else position.y
  c.widgets.enum.foldl (fun finalPos p =>
    if p.1 = draggingIdx then finalPos else snapAgainst position size p.2 finalPos)
    (⟨fx, fy⟩ : Pos2)

/-- The content area of a containing panel as computed inline by the
drag-move branch of `DragDropCanvas::handle_drag_drop` (lines 871-874). -/
def panelContentArea (panelRect : Rect) : Rect :=
  Rect.fromMinSize
    ⟨panelRect.left + PANEL_MARGIN, panelRect.top + PANEL_TITLE_HEIGHT⟩
    ⟨max (panelRect.width - PANEL_MARGIN * 2) 50,
     max (panelRect.height - PANEL_TITLE_HEIGHT - PANEL_MARGIN) 50⟩

/-- The clamp of the desired drag position into a content area (or the
canvas rectangle), as computed inline by the drag-move branch of
`DragDropCanvas::handle_drag_drop` (lines 875-888). -/
def dragClampInto (area : Rect) (widgetSize : Vec2) (newPos : Pos2) : Pos2 :=
  let maxX := max (area.max.x - widgetSize.x) area.min.x
  let maxY := max (area.max.y - widgetSize.y) area.min.y
  ⟨clampQ newPos.x area.min.x maxX, clampQ newPos.y area.min.y maxY⟩

end Canvas2D

namespace Canvas2D

/-- The pointer readings consumed at the top of
`DragDropCanvas::handle_drag_drop`: interact position, `primary_pressed`,
`primary_released`, `secondary_pressed` and `primary_down`. -/
structure MouseInput where
  pos : Option Pos2
  pressed : Bool
  released : Bool
  rightClicked : Bool
  held : Bool
deriving DecidableEq, Repr

/-- Control flow of one block of `handle_drag_drop`: `done` models an early
`return` from the whole function, `cont` falls through to the next block. -/
inductive Flow where
  | done (c : Canvas)
  | cont (c : Canvas)

/-- The canvas the flow carries, however it ended. -/
def Flow.state : Flow → Canvas
  | .done c => c
  | .cont c => c

/-- The reverse scan shared by the click and palette-drop handlers of
`handle_drag_drop` (lines 631-650 and 703-722): the topmost non-collapsed
`Panel` / non-minimized `Settings` whose rectangle contains the position. -/
def findClickedPanelId (ws : List DraggableWidget) (pos : Pos2) : Option Nat :=
  (ws.reverse.find? (fun w =>
    w.getRect.containsPt pos &&
    (match w.widgetType with
     | .Panel _ _ _ _ collapsed _ _ => !collapsed
     | .Settings _ _ minimized _ => !minimized
     | _ => false))).map (·.id)

/-- The placement triple duplicated in `handle_drag_drop` (lines 655-676
for pending-widget clicks and lines 724-746 for palette drops): place into
the clicked/dropped-on panel, else into the selected panel when the
position lies inside it, else on the canvas. -/
def placeWidgetAt (c : Canvas) (wt : WidgetType) (pos : Pos2)
    (clickedPanelId : Option Nat) : Canvas :=
  match clickedPanelId with
  | some panelId =>
      Canvas.addWidgetToSelectedPanel { c with selectedPanel := some panelId } wt pos
  | none =>
    match c.selectedPanel with
    | some panelId =>
      let inSelected := match c.widgets.find? (fun w => w.id = panelId) with
        | some w => w.getRect.containsPt pos
        | none => false
      if inSelected then Canvas.addWidgetToSelectedPanel c wt pos
      else Canvas.addWidget c wt pos
    | none => Canvas.addWidget c wt pos

/-- Block of `handle_drag_drop` lines 626-691: click handling for widget
placement and panel selection. -/
def stepClicks (inp : MouseInput) (c : Canvas) : Flow :=
  if inp.pressed then
    match inp.pos with
    | some pos =>
      if pos.x > 220 then
        let clickedPanelId := findClickedPanelId c.widgets pos
        match c.pendingWidget with
        | some wt =>
            .done (placeWidgetAt { c with pendingWidget := none } wt pos clickedPanelId)
        | none => .cont { c with selectedPanel := clickedPanelId }
      else .cont c
    | none => .cont c
  else .cont c

/-- Block of `handle_drag_drop` lines 694-754: palette dragging. -/
def stepPalette (inp : MouseInput) (c : Canvas) : Flow :=
  match c.paletteDragging with
  | none => .cont c
  | some wt =>
    match inp.pos with
    | none => .done c
    | some pos =>
      let c := { c with paletteDragPos := some pos }
      if inp.released then
        let c :=
          if pos.x > 220 then
            placeWidgetAt c wt pos (findClickedPanelId c.widgets pos)
          else c
        .done { c with paletteDragging := none, paletteDragPos := none }
      else .done c

/-- Block of `handle_drag_drop` lines 757-767: right-click opens the edit
window for the topmost widget under the pointer. -/
def stepRightClick (inp : MouseInput) (c : Canvas) : Canvas :=
  if inp.rightClicked then
    match inp.pos with
    | some pos =>
      match c.widgets.enum.reverse.find? (fun p => p.2.getRect.containsPt pos) with
      | some (idx, _) => { c with editingWidget := some idx, showEditWindow := true }
      | none => c
    | none => c
  else c

/-- The `matches!(widget.widget_type, WidgetType::Panel { .. } | WidgetType::StatusBar { .. })`
test of the press handler (line 778). -/
def isPanelOrStatusBar (w : DraggableWidget) : Bool :=
  match w.widgetType with
  | .Panel .. => true
  | .StatusBar .. => true
  | _ => false

/-- Block of `handle_drag_drop` lines 770-840: pointer-press session start
(resize handle, knob hit-zone, panel collapse triangle, generic drag). -/
def stepPressStart (inp : MouseInput) (c : Canvas) : Flow :=
  if inp.pressed ∧ c.draggingWidget = none ∧ c.interactingWidget = none ∧
      c.resizingWidget = none then
    match inp.pos with
    | none => .cont c
    | some pos =>
      match c.widgets.enum.reverse.find? (fun p => p.2.getRect.containsPt pos) with
      | none => .cont c
      | some (idx, w) =>
        let rect := w.getRect
        let handleSize : Rat := 12
        let handleRect := Rect.fromMinSize
          ⟨rect.max.x - handleSize, rect.max.y - handleSize⟩ ⟨handleSize, handleSize⟩
        if isPanelOrStatusBar w && handleRect.containsPt pos then
          .cont { c with resizingWidget := some idx, resizeStartSize := w.size,
                         lastMousePos := some pos }
        else
          match w.widgetType with
          | .Knob .. =>
            let knobCenter : Pos2 := ⟨w.position.x + w.size.x / 2, w.position.y + 37⟩
            if (pos - knobCenter).lengthSq ≤ 1024 then
              .cont { c with interactingWidget := some idx, lastMousePos := some pos }
            else
              .cont { c with draggingWidget := some idx, dragOffset := pos - w.position }
          | .Panel .. =>
            let titleArea := Rect.fromMinSize w.position ⟨w.size.x, 40⟩
            if titleArea.containsPt pos ∧ pos.x < w.position.x + 30 then
              .done (c.handleWidgetInteraction idx pos)
            else
              .cont { c with draggingWidget := some idx, dragOffset := pos - w.position }
          | _ =>
            .cont { c with draggingWidget := some idx, dragOffset := pos - w.position }
  else .cont c

/-- Block of `handle_drag_drop` lines 843-854: knob turning while held. -/
def stepInteracting (inp : MouseInput) (c : Canvas) : Canvas :=
  match c.interactingWidget with
  | none => c
  | some idx =>
    if inp.held then
      match inp.pos, c.lastMousePos with
      | some currentPos, some lastPos =>
        let deltaY := lastPos.y - currentPos.y
        let c := c.handleKnobInteraction idx deltaY
        { c with lastMousePos := some currentPos }
      | _, _ => c
    else { c with interactingWidget := none, lastMousePos := none }

/-- Block of `handle_drag_drop` lines 857-910: drag-move (clamp into the
containing panel's content area or the canvas, compute guides, snap, set
hover panel, write position) and drag-session clearing when the button is
no longer held. -/
def stepDragging (inp : MouseInput) (c : Canvas) : Flow :=
  match c.draggingWidget with
  | none => .cont c
  | some idx =>
    if inp.held then
      match inp.pos with
      | none => .cont c
      | some pos =>
        match c.widgets.get? idx with
        | none => .done c
        | some w =>
          let widgetSize := w.size
          let newPos : Pos2 := pos - c.dragOffset
          let finalPos :=
            match findWidgetContainerPanel c.widgets idx with
            | some containerPanel =>
              match c.widgets.get? containerPanel with
              | some panel => dragClampInto (panelContentArea panel.getRect) widgetSize newPos
              | none => dragClampInto c.canvasRect widgetSize newPos
            | none => dragClampInto c.canvasRect widgetSize newPos
          let c := c.calculateAlignmentGuides idx finalPos widgetSize
          let finalPos := c.applySnapping idx finalPos widgetSize
          let c := { c with dragHoverPanel := findPanelUnderPosition c.widgets pos }
          let newWidgets := listModify (fun w => { w with position := finalPos }) idx c.widgets
          .cont { c with widgets := newWidgets }
    else
      .cont { c with draggingWidget := none, alignmentGuides := [],
                     dragHoverPanel := none }

/-- Block of `handle_drag_drop` lines 913-945: resizing while held. -/
def stepResizing (inp : MouseInput) (c : Canvas) : Canvas :=
  match c.resizingWidget with
  | none => c
  | some idx =>
    if inp.held then
      match inp.pos, c.lastMousePos with
      | some currentPos, some lastPos =>
        let delta : Vec2 := currentPos - lastPos
        let newWidgets := listModify (fun w =>
            match w.widgetType with
            | .Panel t col wd ht cl contained m =>
              let wd := min (max (wd + delta.x) 100) 500
              let ht := min (max (ht + delta.y) 100) 400
              { w with widgetType := .Panel t col wd ht cl contained m,
                       size := ⟨wd, ht⟩ }
            | .StatusBar .. =>
              let newWidth := min (max (w.size.x + delta.x) 200) 800
              let newHeight := min (max (w.size.y + delta.y) 40) 120
              { w with size := ⟨newWidth, newHeight⟩ }
            | _ => w) idx c.widgets
        { c with widgets := newWidgets, lastMousePos := some currentPos }
      | _, _ => c
    else { c with resizingWidget := none, lastMousePos := none }

/-- Block of `handle_drag_drop` lines 948-964: single clicks for the
remaining interactive widgets. -/
def stepSingleClick (inp : MouseInput) (c : Canvas) : Canvas :=
  if inp.pressed ∧ c.draggingWidget = none ∧ c.interactingWidget = none ∧
      c.resizingWidget = none then
    match inp.pos with
    | none => c
    | some pos =>
      match c.widgets.enum.find? (fun p => p.2.getRect.containsPt pos) with
      | some (i, w) =>
        match w.widgetType with
        | .Knob .. => c
        | .ToggleSwitch .. => c
        | .PushButton .. => c
        | .IconButton .. => c
        | _ => c.handleWidgetInteraction i pos
      | none => c
  else c

/-- Block of `handle_drag_drop` lines 967-1019: pointer release (container
removal for widgets dragged out, click-toggle for small displacements, and
clearing of all sessions). -/
def stepRelease (inp : MouseInput) (c : Canvas) : Canvas :=
  if inp.released then
    let c :=
      match c.draggingWidget with
      | some dragIdx =>
        match c.widgets.get? dragIdx with
        | some w =>
          let widgetRect := w.getRect
          let widgetId := w.id
          let shouldRemoveFromAll := !(c.widgets.any (fun panel =>
            isPanelAcceptingWidgets panel && panel.getRect.containsPt widgetRect.center))
          if shouldRemoveFromAll then
            { c with widgets := removeWidgetFromContainers c.widgets widgetId }
          else c
        | none => c
      | none => c
    let c :=
      match c.draggingWidget with
      | some dragIdx =>
        match inp.pos with
        | some pos =>
          match c.widgets.get? dragIdx with
          | some w =>
            let originalPos : Pos2 := pos - c.dragOffset
            let dragDistSq := ((w.position - originalPos) : Vec2).lengthSq
            if dragDistSq < 25 then
              match w.widgetType with
              | .ToggleSwitch .. => c.handleWidgetInteraction dragIdx pos
              | .PushButton .. => c.handleWidgetInteraction dragIdx pos
              | .IconButton .. => c.handleWidgetInteraction dragIdx pos
              | _ => c
            else c
          | none => c
        | none => c
      | none => c
    { c with draggingWidget := none, interactingWidget := none,
             resizingWidget := none, lastMousePos := none }
  else c

/-- `DragDropCanvas::handle_drag_drop`: one pointer tick. -/
def handleDragDrop (inp : MouseInput) (c : Canvas) : Canvas :=
  match stepClicks inp c with
  | .done c => c
  | .cont c =>
    match stepPalette inp c with
    | .done c => c
    | .cont c =>
      let c := stepRightClick inp c
      match stepPressStart inp c with
      | .done c => c
      | .cont c =>
        let c := stepInteracting inp c
        match stepDragging inp c with
        | .done c => c
        | .cont c =>
          let c := stepResizing inp c
          let c := stepSingleClick inp c
          stepRelease inp c

end Canvas2D

namespace Canvas2D

/-- `DragDropCanvas::is_widget_in_minimized_panel_recursive`, with the
unbounded recursion made structural on an explicit fuel argument.  `none`
models fuel exhaustion and never arises for sufficient fuel (see
`isWidgetInMinimizedPanelFuel_isSome`); the `visited` list plays the role
of the source's `HashSet` (membership is all that is used). -/
def isWidgetInMinimizedPanelFuel (ws : List DraggableWidget) :
    Nat → List Nat → Nat → Option Bool
  | 0, _, _ => none
  | fuel + 1, visited, widgetId =>
    if widgetId ∈ visited then some false
    else
      let visited := widgetId :: visited
      if ws.any (fun w =>
          match w.widgetType with
          | .Panel _ _ _ _ collapsed contained _ =>
              collapsed && decide (widgetId ∈ contained)
          | .Settings _ _ minimized contained =>
              minimized && decide (widgetId ∈ contained)
          | _ => false) then
        some true
      else
        match findWidgetContainerPanelId ws widgetId with
        | some containerPanelId =>
          match ws.find? (fun w => w.id = containerPanelId) with
          | some containerPanel =>
              isWidgetInMinimizedPanelFuel ws fuel visited containerPanel.id
          | none => some false
        | none => some false

/-- `DragDropCanvas::is_widget_in_minimized_panel`.  The fuel
`ws.length + 2` is enough for every state, cyclic containment included
(`isWidgetInMinimizedPanelFuel_isSome`). -/
def Canvas.isWidgetInMinimizedPanel (c : Canvas) (widgetId : Nat) : Bool :=
  (isWidgetInMinimizedPanelFuel c.widgets (c.widgets.length + 2) [] widgetId).getD false

end Canvas2D

namespace Canvas2D

/-- One rectangle lies fully inside another (used to state the containment
bound of the spec). -/
def Rect.containsRect (outer inner : Rect) : Prop :=
  outer.min.x ≤ inner.min.x ∧ inner.max.x ≤ outer.max.x ∧
  outer.min.y ≤ inner.min.y ∧ inner.max.y ≤ outer.max.y

instance (outer inner : Rect) : Decidable (Rect.containsRect outer inner) :=
  inferInstanceAs (Decidable (outer.min.x ≤ inner.min.x ∧ inner.max.x ≤ outer.max.x ∧
    outer.min.y ≤ inner.min.y ∧ inner.max.y ≤ outer.max.y))

/-- Number of active interaction sessions among the four session fields of
the canvas (spec: Dragging / AdjustingValue / Resizing / PaletteDragging). -/
def sessionCount (c : Canvas) : Nat :=
  (if c.draggingWidget.isSome then 1 else 0) +
  (if c.interactingWidget.isSome then 1 else 0) +
  (if c.resizingWidget.isSome then 1 else 0) +
  (if c.paletteDragging.isSome then 1 else 0)

/-- Some session field switched from `None` to `Some` between two states. -/
def startsNewSession (c c' : Canvas) : Prop :=
  (c.draggingWidget = none ∧ c'.draggingWidget.isSome = true) ∨
  (c.interactingWidget = none ∧ c'.interactingWidget.isSome = true) ∨
  (c.resizingWidget = none ∧ c'.resizingWidget.isSome = true) ∨
  (c.paletteDragging = none ∧ c'.paletteDragging.isSome = true)

/-- The canvas mutators that create or destroy widget records: palette
placement on the canvas, placement into the selected panel, the edit
window's right-click/delete pair, and clearing the canvas. -/
inductive CanvasOp where
  | add (wt : WidgetType) (pos : Pos2)
  | addToSelectedPanel (wt : WidgetType) (pos : Pos2)
  | rightClick (inp : MouseInput)
  | deleteEdited
  | clear

/-- Apply one canvas mutator. -/
def stepOp : CanvasOp → Canvas → Canvas
  | .add wt pos, c => c.addWidget wt pos
  | .addToSelectedPanel wt pos, c => c.addWidgetToSelectedPanel wt pos
  | .rightClick inp, c => stepRightClick inp c
  | .deleteEdited, c => c.deleteEditedWidget
  | .clear, c => c.clearCanvas

/-- Apply a sequence of canvas mutators. -/
def runOps (ops : List CanvasOp) (c : Canvas) : Canvas :=
  ops.foldl (fun c op => stepOp op c) c

/-- Widget ids not yet in the visited set (the measure that bounds the
recursion depth of `is_widget_in_minimized_panel_recursive`). -/
def remainingIds (ws : List DraggableWidget) (visited : List Nat) : Nat :=
  ((ws.map DraggableWidget.id).filter (fun i => decide (i ∉ visited))).length

/-- A fresh knob as produced by the widget palette. -/
def knobT : WidgetType := .Knob 50 0 100 "KNOB" .Cyan

/-- A fresh toggle switch as produced by the widget palette. -/
def togT : WidgetType := .ToggleSwitch false "TOGGLE" .Cyan true

/-- A fresh VU meter as produced by the widget palette. -/
def vuT : WidgetType := .VuMeter 75 80 "VU" .Green

/-- A fresh level indicator as produced by the widget palette. -/
def levT : WidgetType := .LevelIndicator 62 8 "INPUT"

/-- An empty canvas whose viewport is the 800x600 rectangle at the origin. -/
def spawnStart : Canvas :=
  { Canvas.default with canvasRect := Rect.fromMinMax ⟨0, 0⟩ ⟨800, 600⟩ }

/-- Three consecutive knob spawns on the empty 800x600 canvas. -/
def spawnRun : Canvas :=
  ((spawnStart.addWidget knobT ⟨0, 0⟩).addWidget knobT ⟨0, 0⟩).addWidget knobT ⟨0, 0⟩

/-- A canvas holding a single toggle switch at (300, 300). -/
def toggleStart : Canvas :=
  { Canvas.default with
    canvasRect := Rect.fromMinMax ⟨221, 60⟩ ⟨821, 660⟩,
    widgets := [DraggableWidget.new 0 togT ⟨300, 300⟩], nextId := 1 }

/-- A press tick on the toggle switch of `toggleStart` (press frame:
`primary_down` is true). -/
def togglePress : MouseInput :=
  { pos := some ⟨310, 310⟩, pressed := true, released := false,
    rightClicked := false, held := true }

/-- A release tick at the unmoved pointer (release frame: `primary_down`
is false and `primary_released` is true, as reported by egui). -/
def toggleRelease : MouseInput :=
  { pos := some ⟨310, 310⟩, pressed := false, released := true,
    rightClicked := false, held := false }

/-- The press-then-release run on the toggle switch with zero pointer
displacement. -/
def toggleRun : Canvas :=
  handleDragDrop toggleRelease (handleDragDrop togglePress toggleStart)

/-- A canvas with two knobs side by side on the canvas (no containment). -/
def twoKnobStart : Canvas :=
  { Canvas.default with
    canvasRect := Rect.fromMinMax ⟨221, 60⟩ ⟨821, 660⟩,
    widgets := [DraggableWidget.new 0 knobT ⟨230, 100⟩,
                DraggableWidget.new 1 knobT ⟨360, 100⟩], nextId := 2 }

/-- Press on knob 0, drag it exactly onto knob 1, release: the three
pointer ticks of a drag that ends with overlapping rectangles. -/
def dragOntoRun : Canvas :=
  let press : MouseInput :=
    { pos := some ⟨231, 101⟩, pressed := true, released := false,
      rightClicked := false, held := true }
  let move : MouseInput :=
    { pos := some ⟨361, 101⟩, pressed := false, released := false,
      rightClicked := false, held := true }
  let release : MouseInput :=
    { pos := some ⟨361, 101⟩, pressed := false, released := true,
      rightClicked := false, held := false }
  handleDragDrop release (handleDragDrop move (handleDragDrop press twoKnobStart))

/-- A canvas where toggle 0 is contained in panel 1 and a VU meter sits on
the canvas just left of the panel's content area, with a drag of the
toggle in progress. -/
def containedDragStart : Canvas :=
  { Canvas.default with
    canvasRect := Rect.fromMinMax ⟨221, 60⟩ ⟨821, 660⟩,
    widgets := [DraggableWidget.new 0 togT ⟨320, 150⟩,
                DraggableWidget.new 1 (.Panel "P" .Cyan 200 150 false [0] false) ⟨300, 100⟩,
                DraggableWidget.new 2 vuT ⟨303, 400⟩],
    nextId := 3,
    draggingWidget := some 0, dragOffset := ⟨0, 0⟩ }

/-- One drag-move tick of `containedDragStart` whose clamped position lies
inside the panel's content area but whose snapped position does not. -/
def containedDragRun : Canvas :=
  handleDragDrop
    { pos := some ⟨310, 150⟩, pressed := false, released := false,
      rightClicked := false, held := true }
    containedDragStart

/-- A canvas with a dragged knob (index 0) and a level indicator whose
center is 1 px off the candidate's center while its left edge is 7 px off
the candidate's left edge. -/
def snapStart : Canvas :=
  { Canvas.default with
    canvasRect := Rect.fromMinMax ⟨0, 0⟩ ⟨2000, 2000⟩,
    widgets := [DraggableWidget.new 0 knobT ⟨400, 500⟩,
                DraggableWidget.new 1 levT ⟨393, 800⟩], nextId := 2 }

/-- A canvas where panel 0 contains widget 1 and the edit window is open on
widget index 1. -/
def deleteStart : Canvas :=
  { Canvas.default with
    widgets := [DraggableWidget.new 0 (.Panel "P" .Cyan 200 150 false [1] false) ⟨50, 50⟩,
                DraggableWidget.new 1 togT ⟨60, 100⟩],
    nextId := 2,
    editingWidget := some 1, showEditWindow := true }

/-- A pointer-release tick away from any press (used for the drag-release
analysis of the two-knob scenario). -/
def knobReleaseInp : MouseInput :=
  { pos := some ⟨361, 101⟩, pressed := false, released := true,
    rightClicked := false, held := false }

/-- A mixed mutator sequence: create a knob, right-click, delete the edited
widget, clear the canvas, create a toggle. -/
def idOps : List CanvasOp :=
  [.add knobT ⟨0, 0⟩, .rightClick knobReleaseInp, .deleteEdited, .clear, .add togT ⟨0, 0⟩]

/-- The four interaction-session fields agree between two canvas states. -/
def sessEq (a b : Canvas) : Prop :=
  a.draggingWidget = b.draggingWidget ∧ a.interactingWidget = b.interactingWidget ∧
  a.resizingWidget = b.resizingWidget ∧ a.paletteDragging = b.paletteDragging

/-- The spec's referential invariant: every `contained_widgets` entry names
an existing widget. -/
def containedIdsValid (ws : List DraggableWidget) : Prop :=
  ∀ r ∈ ws, ∀ j ∈ r.containedList, ∃ q ∈ ws, q.id = j

instance (ws : List DraggableWidget) : Decidable (containedIdsValid ws) :=
  inferInstanceAs (Decidable (∀ r ∈ ws, ∀ j ∈ r.containedList, ∃ q ∈ ws, q.id = j))

/-- The x-coordinates of consecutive widgets are strictly increasing. -/
def xStrictlyIncreasing : List DraggableWidget → Bool
  | a :: b :: rest => decide (a.position.x < b.position.x) && xStrictlyIncreasing (b :: rest)
  | _ => true

/-- The x-coordinates of consecutive widgets are strictly decreasing. -/
def xStrictlyDecreasing : List DraggableWidget → Bool
  | a :: b :: rest => decide (b.position.x < a.position.x) && xStrictlyDecreasing (b :: rest)
  | _ => true

/-- A canvas whose selected panel (id 5) is collapsed, i.e. not accepting
widgets. -/
def collapsedSelStart : Canvas :=
  { Canvas.default with
    canvasRect := Rect.fromMinMax ⟨0, 0⟩ ⟨800, 600⟩,
    widgets := [DraggableWidget.new 5 (.Panel "P" .Cyan 200 150 true [] false) ⟨50, 50⟩],
    nextId := 6,
    selectedPanel := some 5 }

end Canvas2D

namespace Canvas2D


/-- Claim C6 (amended): center snapping does produce an exact center match
when no edge snap fires: if the dragged candidate's center is within 8px of
the other widget's center on the x-axis while both x-edge deltas are at
least 8px, `apply_snapping` makes the final x-center difference exactly 0. -/
theorem c6_center_snap_amended (c : Canvas) (a b : DraggableWidget) (pos : Pos2) (size : Vec2)
    (hw : c.widgets = [a, b])
    (hcx : |pos.x + size.x / 2 - (b.position.x + b.size.x / 2)| < 8)
    (hl : ¬ |pos.x - b.position.x| < 8)
    (hr : ¬ |pos.x + size.x - (b.position.x + b.size.x)| < 8) :
    (c.applySnapping 0 pos size).x + size.x / 2 = b.position.x + b.size.x / 2 := by
  simp [Canvas.applySnapping, hw, List.enum, List.enumFrom, snapAgainst, hcx, hl, hr]

/-- Claim C2 (amended): the clamp step alone does respect containment: for
any content area at least as large as the widget, the clamped drag position
keeps the widget's rectangle fully inside the area.  (The snap engine runs
after this clamp and can undo it; see the counterexample.) -/
theorem c2_clamp_amended (area : Rect) (ws : Vec2) (p : Pos2)
    (hx : ws.x ≤ area.width) (hy : ws.y ≤ area.height) :
    Rect.containsRect area (Rect.fromMinSize (dragClampInto area ws p) ws) := by
  unfold Rect.width at hx
  unfold Rect.height at hy
  unfold Rect.containsRect Rect.fromMinSize dragClampInto clampQ
  refine ⟨?_, ?_, ?_, ?_⟩
  · exact le_min (le_max_right _ _) (le_max_right _ _)
  · show min (max p.x area.min.x) (max (area.max.x - ws.x) area.min.x) + ws.x ≤ area.max.x
    have h1 : min (max p.x area.min.x) (max (area.max.x - ws.x) area.min.x) ≤
        max (area.max.x - ws.x) area.min.x := min_le_right _ _
    have h2 : max (area.max.x - ws.x) area.min.x ≤ area.max.x - ws.x := by
      apply max_le le_rfl (by linarith)
    linarith
  · exact le_min (le_max_right _ _) (le_max_right _ _)
  · show min (max p.y area.min.y) (max (area.max.y - ws.y) area.min.y) + ws.y ≤ area.max.y
    have h1 : min (max p.y area.min.y) (max (area.max.y - ws.y) area.min.y) ≤
        max (area.max.y - ws.y) area.min.y := min_le_right _ _
    have h2 : max (area.max.y - ws.y) area.min.y ≤ area.max.y - ws.y := by
      apply max_le le_rfl (by linarith)
    linarith

/-- Claim C9: adding a widget while the selected container is collapsed or
minimized (not accepting widgets) silently clears `selected_panel` and falls
back to plain canvas placement; the existing widget records — in particular
the non-accepting container — are appended to, never modified. -/
theorem c9_collapsed_falls_back (c : Canvas) (wt : WidgetType) (pos : Pos2)
    (panelId panelIdx : Nat)
    (panel : DraggableWidget)
    (hsel : c.selectedPanel = some panelId)
    (hfind : c.widgets.enum.find? (fun p => p.2.id = panelId) = some (panelIdx, panel))
    (hacc : isPanelAcceptingWidgets panel = false) :
    c.addWidgetToSelectedPanel wt pos =
      Canvas.addWidget { c with selectedPanel := none } wt pos ∧
    (c.addWidgetToSelectedPanel wt pos).selectedPanel = none ∧
    ∃ w, (c.addWidgetToSelectedPanel wt pos).widgets = c.widgets ++ [w] := by
  have hmain : c.addWidgetToSelectedPanel wt pos =
      Canvas.addWidget { c with selectedPanel := none } wt pos := by
    unfold Canvas.addWidgetToSelectedPanel
    rw [hsel]
    simp [hfind, hacc]
  refine ⟨hmain, ?_, ?_⟩
  · rw [hmain]
    unfold Canvas.addWidget
    dsimp only
    split <;> rfl
  · rw [hmain]
    unfold Canvas.addWidget
    dsimp only
    split <;> exact ⟨_, rfl⟩

theorem filter_cons_visited_lt (l : List Nat) (wid : Nat) (visited : List Nat)
    (hmem : wid ∈ l) (hnv : wid ∉ visited) :
    (l.filter (fun i => decide (i ∉ wid :: visited))).length <
      (l.filter (fun i => decide (i ∉ visited))).length := by
  induction l with
  | nil => cases hmem
  | cons a l ih =>
    rw [List.filter_cons, List.filter_cons]
    have hmono : (l.filter (fun i => decide (i ∉ wid :: visited))).length ≤
        (l.filter (fun i => decide (i ∉ visited))).length := by
      rw [← List.countP_eq_length_filter, ← List.countP_eq_length_filter]
      apply List.countP_mono_left
      intro x _ hx
      simp only [decide_eq_true_eq, List.mem_cons] at hx ⊢
      tauto
    by_cases ha : a = wid
    · have h1 : (decide (a ∉ wid :: visited)) = false := by
        simp [ha]
      have h2 : (decide (a ∉ visited)) = true := by
        simp [ha, hnv]
      rw [h1, h2]
      simp only [Bool.false_eq_true, if_false, if_true, List.length_cons]
      omega
    · have hmem' : wid ∈ l := by
        cases hmem with
        | head => exact absurd rfl ha
        | tail _ h => exact h
      have hsame : (decide (a ∉ wid :: visited)) = (decide (a ∉ visited)) := by
        simp [List.mem_cons, ha]
      rw [hsame]
      by_cases hav : (decide (a ∉ visited)) = true
      · rw [hav]
        simp only [if_true, List.length_cons]
        exact Nat.succ_lt_succ (ih hmem')
      · rw [Bool.not_eq_true] at hav
        rw [hav]
        simp only [Bool.false_eq_true, if_false]
        exact ih hmem'

theorem remainingIds_cons_lt (ws : List DraggableWidget) (visited : List Nat) (wid : Nat)
    (hmem : wid ∈ ws.map DraggableWidget.id) (hnv : wid ∉ visited) :
    remainingIds ws (wid :: visited) < remainingIds ws visited :=
  filter_cons_visited_lt _ wid visited hmem hnv

theorem minimizedFuel_isSome (ws : List DraggableWidget) :
    ∀ (fuel : Nat) (visited : List Nat) (wid : Nat),
      wid ∈ ws.map DraggableWidget.id →
      remainingIds ws visited < fuel →
      (isWidgetInMinimizedPanelFuel ws fuel visited wid).isSome = true := by
  intro fuel
  induction fuel with
  | zero => intro visited wid _ h; omega
  | succ f ih =>
    intro visited wid hmem hlt
    rw [isWidgetInMinimizedPanelFuel]
    by_cases hv : wid ∈ visited
    · simp [hv]
    · rw [if_neg hv]
      by_cases hd : (ws.any (fun w =>
          match w.widgetType with
          | .Panel _ _ _ _ collapsed contained _ =>
              collapsed && decide (wid ∈ contained)
          | .Settings _ _ minimized contained =>
              minimized && decide (wid ∈ contained)
          | _ => false)) = true
      · simp [hd]
      · rw [Bool.not_eq_true] at hd
        cases hfind : findWidgetContainerPanelId ws wid with
        | none => simp [hd, hfind]
        | some cid =>
          cases hfw : ws.find? (fun w => w.id = cid) with
          | none => simp [hd, hfind, hfw]
          | some cw =>
            simp only [hd, hfind, hfw, Bool.false_eq_true, if_false]
            apply ih
            · have : cw ∈ ws := List.mem_of_find?_eq_some hfw
              exact List.mem_map_of_mem _ this
            · have h1 : remainingIds ws (wid :: visited) < remainingIds ws visited :=
                remainingIds_cons_lt ws visited wid hmem hv
              omega

/-- Claim C10: `is_widget_in_minimized_panel` terminates for every canvas
state, including containment cycles: with fuel `|widgets| + 2` the visited
set grows on every recursive call, so the recursion never exhausts its fuel
and always returns a boolean. -/
theorem c10_minimized_query_total (c : Canvas) (widgetId : Nat) :
    (isWidgetInMinimizedPanelFuel c.widgets (c.widgets.length + 2) [] widgetId).isSome
      = true := by
  have hstep : c.widgets.length + 2 = (c.widgets.length + 1) + 1 := rfl
  rw [hstep, isWidgetInMinimizedPanelFuel]
  rw [if_neg (List.not_mem_nil widgetId)]
  by_cases hd : (c.widgets.any (fun w =>
      match w.widgetType with
      | .Panel _ _ _ _ collapsed contained _ =>
          collapsed && decide (widgetId ∈ contained)
      | .Settings _ _ minimized contained =>
          minimized && decide (widgetId ∈ contained)
      | _ => false)) = true
  · simp [hd]
  · rw [Bool.not_eq_true] at hd
    cases hfind : findWidgetContainerPanelId c.widgets widgetId with
    | none => simp [hd, hfind]
    | some cid =>
      cases hfw : c.widgets.find? (fun w => w.id = cid) with
      | none => simp [hd, hfind, hfw]
      | some cw =>
        simp only [hd, hfind, hfw, Bool.false_eq_true, if_false]
        apply minimizedFuel_isSome
        · exact List.mem_map_of_mem _ (List.mem_of_find?_eq_some hfw)
        · have hle : remainingIds c.widgets [widgetId] ≤ c.widgets.length := by
            unfold remainingIds
            calc ((c.widgets.map DraggableWidget.id).filter _).length
                ≤ (c.widgets.map DraggableWidget.id).length := List.length_filter_le _ _
              _ = c.widgets.length := List.length_map _ _
          omega

/-- Claim C7 (amended): the edit window's delete command removes only the
widget record itself; when some surviving container still lists the deleted
widget's id — which the delete never cleans up — the referential invariant
that every `contained_widgets` entry names an existing widget fails, since
widget ids are unique and the deleted id no longer occurs. -/
theorem c7_delete_leaves_dangling_id (c : Canvas) (idx : Nat) (w p : DraggableWidget)
    (hidx : c.editingWidget = some idx)
    (hw : c.widgets[idx]? = some w)
    (hnodup : (c.widgets.map DraggableWidget.id).Nodup)
    (hp : p ∈ c.deleteEditedWidget.widgets)
    (hmem : w.id ∈ p.containedList) :
    ¬ containedIdsValid c.deleteEditedWidget.widgets := by
  intro hvalid
  have hnone : ∀ q ∈ c.deleteEditedWidget.widgets, q.id ≠ w.id := by
    intro q hq heq
    simp only [Canvas.deleteEditedWidget, hidx] at hq
    rw [List.mem_eraseIdx_iff_getElem?] at hq
    obtain ⟨i, hne, hqi⟩ := hq
    have h1 : (c.widgets.map DraggableWidget.id)[i]? = some w.id := by
      rw [List.getElem?_map, hqi]
      simp [heq]
    have h2 : (c.widgets.map DraggableWidget.id)[idx]? = some w.id := by
      rw [List.getElem?_map, hw]
      rfl
    have hinj := List.nodup_iff_getElem?_ne_getElem?.mp hnodup
    obtain ⟨hilen, -⟩ := List.getElem?_eq_some_iff.mp h1
    obtain ⟨hxlen, -⟩ := List.getElem?_eq_some_iff.mp h2
    rcases Nat.lt_or_ge i idx with hlt | hge
    · exact hinj i idx hlt hxlen (h1.trans h2.symm)
    · have hgt : idx < i := Nat.lt_of_le_of_ne hge (fun hh => hne hh.symm)
      exact hinj idx i hgt hilen (h2.trans h1.symm)
  obtain ⟨q, hq, hqid⟩ := hvalid p hp w.id hmem
  exact hnone q hq hqid

theorem listModify_map_id (f : DraggableWidget → DraggableWidget)
    (hf : ∀ w, (f w).id = w.id) :
    ∀ (n : Nat) (ws : List DraggableWidget),
      (listModify f n ws).map DraggableWidget.id = ws.map DraggableWidget.id := by
  intro n
  induction n with
  | zero => intro ws; cases ws <;> simp [listModify, hf]
  | succ m ih => intro ws; cases ws <;> simp [listModify, hf, ih]

theorem addWidgetToPanel_map_id (ws : List DraggableWidget) (panelIdx widgetId : Nat) :
    (addWidgetToPanel ws panelIdx widgetId).map DraggableWidget.id =
      ws.map DraggableWidget.id := by
  apply listModify_map_id
  intro w
  obtain ⟨i, wt0, pos, sz⟩ := w
  cases wt0 <;> try rfl
  case Panel t col wd ht cl contained m => cases cl <;> rfl
  case Settings l col mi contained => cases mi <;> rfl

theorem addWidget_map_id (c : Canvas) (wt : WidgetType) (p : Pos2) :
    (c.addWidget wt p).widgets.map DraggableWidget.id =
      c.widgets.map DraggableWidget.id ++ [c.nextId] := by
  by_cases h : c.canvasRect = Rect.NOTHING <;>
    simp [Canvas.addWidget, h, DraggableWidget.new]

theorem addWidget_nextId (c : Canvas) (wt : WidgetType) (p : Pos2) :
    (c.addWidget wt p).nextId = c.nextId + 1 := by
  by_cases h : c.canvasRect = Rect.NOTHING <;> simp [Canvas.addWidget, h]

theorem addWidgetToSelectedPanel_map_id (c : Canvas) (wt : WidgetType) (p : Pos2) :
    (c.addWidgetToSelectedPanel wt p).widgets.map DraggableWidget.id =
      c.widgets.map DraggableWidget.id ++ [c.nextId] := by
  unfold Canvas.addWidgetToSelectedPanel
  split
  · split
    · split
      · rw [addWidgetToPanel_map_id]
        simp [DraggableWidget.new]
      · exact addWidget_map_id _ wt p
    · exact addWidget_map_id _ wt p
  · exact addWidget_map_id c wt p

theorem addWidgetToSelectedPanel_nextId (c : Canvas) (wt : WidgetType) (p : Pos2) :
    (c.addWidgetToSelectedPanel wt p).nextId = c.nextId + 1 := by
  unfold Canvas.addWidgetToSelectedPanel
  split
  · split
    · split
      · rfl
      · exact addWidget_nextId _ wt p
    · exact addWidget_nextId _ wt p
  · exact addWidget_nextId c wt p

theorem stepRightClick_widgets (inp : MouseInput) (c : Canvas) :
    (stepRightClick inp c).widgets = c.widgets := by
  unfold stepRightClick
  repeat' split
  all_goals rfl

theorem stepRightClick_nextId (inp : MouseInput) (c : Canvas) :
    (stepRightClick inp c).nextId = c.nextId := by
  unfold stepRightClick
  repeat' split
  all_goals rfl

theorem deleteEditedWidget_nextId (c : Canvas) :
    c.deleteEditedWidget.nextId = c.nextId := by
  unfold Canvas.deleteEditedWidget
  split <;> rfl

theorem deleteEditedWidget_widgets_subset (c : Canvas) :
    c.deleteEditedWidget.widgets ⊆ c.widgets := by
  unfold Canvas.deleteEditedWidget
  split
  · exact List.eraseIdx_subset _ _
  · exact List.Subset.refl _

theorem c8step (op : CanvasOp) (c : Canvas)
    (hinv : ∀ i ∈ c.widgets.map DraggableWidget.id, i < c.nextId) :
    (∀ i ∈ (stepOp op c).widgets.map DraggableWidget.id, i < (stepOp op c).nextId) ∧
    c.nextId ≤ (stepOp op c).nextId ∧
    (∀ i ∈ (stepOp op c).widgets.map DraggableWidget.id,
      i ∈ c.widgets.map DraggableWidget.id ∨ c.nextId ≤ i) := by
  cases op with
  | add wt pos =>
    simp only [stepOp]
    rw [addWidget_map_id, addWidget_nextId]
    refine ⟨?_, Nat.le_succ _, ?_⟩
    · intro i hi
      rcases List.mem_append.mp hi with h | h
      · exact Nat.lt_succ_of_lt (hinv i h)
      · simp only [List.mem_singleton] at h
        omega
    · intro i hi
      rcases List.mem_append.mp hi with h | h
      · exact Or.inl h
      · simp only [List.mem_singleton] at h
        omega
  | addToSelectedPanel wt pos =>
    simp only [stepOp]
    rw [addWidgetToSelectedPanel_map_id, addWidgetToSelectedPanel_nextId]
    refine ⟨?_, Nat.le_succ _, ?_⟩
    · intro i hi
      rcases List.mem_append.mp hi with h | h
      · exact Nat.lt_succ_of_lt (hinv i h)
      · simp only [List.mem_singleton] at h
        omega
    · intro i hi
      rcases List.mem_append.mp hi with h | h
      · exact Or.inl h
      · simp only [List.mem_singleton] at h
        omega
  | rightClick inp =>
    simp only [stepOp]
    rw [stepRightClick_nextId, stepRightClick_widgets]
    exact ⟨hinv, Nat.le_refl _, fun i hi => Or.inl hi⟩
  | deleteEdited =>
    simp only [stepOp]
    rw [deleteEditedWidget_nextId]
    have hsub := List.map_subset DraggableWidget.id (deleteEditedWidget_widgets_subset c)
    exact ⟨fun i hi => hinv i (hsub hi), Nat.le_refl _, fun i hi => Or.inl (hsub hi)⟩
  | clear =>
    simp only [stepOp, Canvas.clearCanvas]
    exact ⟨fun i hi => by simp at hi, Nat.le_refl _, fun i hi => by simp at hi⟩

/-- Claim C8: across any sequence of widget-creating and widget-destroying
operations (palette placement, panel placement, right-click editing,
edit-window deletion, canvas clearing), `next_id` never decreases, every
stored widget id stays below `next_id`, and every id present afterwards is
either an original id or a fresh one at least the starting `next_id` — so a
deleted widget's id is never reassigned. -/
theorem c8_ids_fresh (ops : List CanvasOp) (c : Canvas)
    (hinv : ∀ i ∈ c.widgets.map DraggableWidget.id, i < c.nextId) :
    (∀ i ∈ (runOps ops c).widgets.map DraggableWidget.id, i < (runOps ops c).nextId) ∧
    c.nextId ≤ (runOps ops c).nextId ∧
    (∀ i ∈ (runOps ops c).widgets.map DraggableWidget.id,
      i ∈ c.widgets.map DraggableWidget.id ∨ c.nextId ≤ i) := by
  induction ops generalizing c with
  | nil => exact ⟨hinv, Nat.le_refl _, fun i hi => Or.inl hi⟩
  | cons op ops ih =>
    have hstep := c8step op c hinv
    have hrun := ih (stepOp op c) hstep.1
    have hruneq : runOps (op :: ops) c = runOps ops (stepOp op c) := rfl
    rw [hruneq]
    refine ⟨hrun.1, Nat.le_trans hstep.2.1 hrun.2.1, ?_⟩
    intro i hi
    rcases hrun.2.2 i hi with h | h
    · rcases hstep.2.2 i h with h2 | h2
      · exact Or.inl h2
      · exact Or.inr h2
    · exact Or.inr (Nat.le_trans hstep.2.1 h)

theorem addWidget_sessEq (c : Canvas) (wt : WidgetType) (p : Pos2) :
    sessEq (c.addWidget wt p) c := by
  by_cases h : c.canvasRect = Rect.NOTHING <;>
    simp [Canvas.addWidget, h, sessEq]

theorem addWidgetToSelectedPanel_sessEq (c : Canvas) (wt : WidgetType) (p : Pos2) :
    sessEq (c.addWidgetToSelectedPanel wt p) c := by
  unfold Canvas.addWidgetToSelectedPanel
  split
  · split
    · split
      · exact ⟨rfl, rfl, rfl, rfl⟩
      · exact addWidget_sessEq _ wt p
    · exact addWidget_sessEq _ wt p
  · exact addWidget_sessEq c wt p

theorem placeWidgetAt_sessEq (c : Canvas) (wt : WidgetType) (pos : Pos2)
    (cp : Option Nat) : sessEq (placeWidgetAt c wt pos cp) c := by
  unfold placeWidgetAt
  repeat' split
  all_goals try (dsimp only; repeat' split)
  all_goals
    first
      | exact addWidgetToSelectedPanel_sessEq _ wt pos
      | exact addWidget_sessEq _ wt pos

theorem handleWidgetInteraction_sessEq (c : Canvas) (idx : Nat) (pos : Pos2) :
    sessEq (c.handleWidgetInteraction idx pos) c := by
  unfold Canvas.handleWidgetInteraction
  split
  · exact ⟨rfl, rfl, rfl, rfl⟩
  · split
    · exact ⟨rfl, rfl, rfl, rfl⟩
    · exact ⟨rfl, rfl, rfl, rfl⟩

theorem handleKnobInteraction_sessEq (c : Canvas) (idx : Nat) (dy : Rat) :
    sessEq (c.handleKnobInteraction idx dy) c :=
  ⟨rfl, rfl, rfl, rfl⟩

theorem sessEq_trans {a b c : Canvas} (h1 : sessEq a b) (h2 : sessEq b c) : sessEq a c :=
  ⟨h1.1.trans h2.1, h1.2.1.trans h2.2.1, h1.2.2.1.trans h2.2.2.1, h1.2.2.2.trans h2.2.2.2⟩

theorem stepClicks_state_sessEq (inp : MouseInput) (c : Canvas) :
    sessEq (stepClicks inp c).state c := by
  unfold stepClicks
  repeat' split
  all_goals dsimp only [Flow.state]
  all_goals
    first
      | exact placeWidgetAt_sessEq _ _ _ _
      | exact ⟨rfl, rfl, rfl, rfl⟩

theorem stepPalette_state_char (inp : MouseInput) (c : Canvas) :
    (stepPalette inp c).state.draggingWidget = c.draggingWidget ∧
    (stepPalette inp c).state.interactingWidget = c.interactingWidget ∧
    (stepPalette inp c).state.resizingWidget = c.resizingWidget ∧
    ((stepPalette inp c).state.paletteDragging = c.paletteDragging ∨
      (stepPalette inp c).state.paletteDragging = none) := by
  unfold stepPalette
  repeat' split
  all_goals refine ⟨?_, ?_, ?_, ?_⟩
  all_goals dsimp only [Flow.state]
  all_goals
    first
      | rfl
      | exact Or.inl rfl
      | exact Or.inr rfl
      | exact (placeWidgetAt_sessEq _ _ _ _).1
      | exact (placeWidgetAt_sessEq _ _ _ _).2.1
      | exact (placeWidgetAt_sessEq _ _ _ _).2.2.1

theorem stepPalette_cont_inv (inp : MouseInput) (c c' : Canvas)
    (h : stepPalette inp c = .cont c') : c' = c ∧ c.paletteDragging = none := by
  unfold stepPalette at h
  revert h
  split
  · intro h
    cases h
    exact ⟨rfl, by assumption⟩
  · split
    · intro h; cases h
    · split
      · intro h; cases h
      · intro h; cases h

theorem stepRightClick_sessEq (inp : MouseInput) (c : Canvas) :
    sessEq (stepRightClick inp c) c := by
  unfold stepRightClick
  repeat' split
  all_goals exact ⟨rfl, rfl, rfl, rfl⟩

theorem stepPressStart_state_char (inp : MouseInput) (c : Canvas) :
    (stepPressStart inp c).state.paletteDragging = c.paletteDragging ∧
    (((stepPressStart inp c).state.draggingWidget = c.draggingWidget ∧
      (stepPressStart inp c).state.interactingWidget = c.interactingWidget ∧
      (stepPressStart inp c).state.resizingWidget = c.resizingWidget) ∨
     (c.draggingWidget = none ∧ c.interactingWidget = none ∧ c.resizingWidget = none ∧
      (((stepPressStart inp c).state.interactingWidget = none ∧
        (stepPressStart inp c).state.resizingWidget = none) ∨
       ((stepPressStart inp c).state.draggingWidget = none ∧
        (stepPressStart inp c).state.resizingWidget = none) ∨
       ((stepPressStart inp c).state.draggingWidget = none ∧
        (stepPressStart inp c).state.interactingWidget = none)))) := by
  unfold stepPressStart
  split
  · rename_i hguard
    obtain ⟨hp, hd, hi, hr⟩ := hguard
    repeat' split
    all_goals dsimp only [Flow.state]
    all_goals try split_ifs
    all_goals try dsimp only [Flow.state]
    all_goals
      first
        | exact ⟨rfl, Or.inl ⟨rfl, rfl, rfl⟩⟩
        | exact ⟨rfl, Or.inr ⟨hd, hi, hr, Or.inl ⟨hi, hr⟩⟩⟩
        | exact ⟨rfl, Or.inr ⟨hd, hi, hr, Or.inr (Or.inl ⟨hd, hr⟩)⟩⟩
        | exact ⟨rfl, Or.inr ⟨hd, hi, hr, Or.inr (Or.inr ⟨hd, hi⟩)⟩⟩
        | exact ⟨(handleWidgetInteraction_sessEq _ _ _).2.2.2,
            Or.inl ⟨(handleWidgetInteraction_sessEq _ _ _).1,
              (handleWidgetInteraction_sessEq _ _ _).2.1,
              (handleWidgetInteraction_sessEq _ _ _).2.2.1⟩⟩
  · exact ⟨rfl, Or.inl ⟨rfl, rfl, rfl⟩⟩

end Canvas2D

namespace Canvas2D

theorem stepInteracting_char (inp : MouseInput) (c : Canvas) :
    (stepInteracting inp c).draggingWidget = c.draggingWidget ∧
    (stepInteracting inp c).resizingWidget = c.resizingWidget ∧
    (stepInteracting inp c).paletteDragging = c.paletteDragging ∧
    ((stepInteracting inp c).interactingWidget = c.interactingWidget ∨
      (stepInteracting inp c).interactingWidget = none) := by
  unfold stepInteracting
  repeat' split
  all_goals
    first
      | exact ⟨rfl, rfl, rfl, Or.inl rfl⟩
      | exact ⟨rfl, rfl, rfl, Or.inr rfl⟩

theorem stepDragging_state_char (inp : MouseInput) (c : Canvas) :
    (stepDragging inp c).state.interactingWidget = c.interactingWidget ∧
    (stepDragging inp c).state.resizingWidget = c.resizingWidget ∧
    (stepDragging inp c).state.paletteDragging = c.paletteDragging ∧
    ((stepDragging inp c).state.draggingWidget = c.draggingWidget ∨
      (stepDragging inp c).state.draggingWidget = none) := by
  unfold stepDragging
  repeat' split
  all_goals dsimp only [Flow.state]
  all_goals
    first
      | exact ⟨rfl, rfl, rfl, Or.inl rfl⟩
      | exact ⟨rfl, rfl, rfl, Or.inr rfl⟩

theorem stepResizing_char (inp : MouseInput) (c : Canvas) :
    (stepResizing inp c).draggingWidget = c.draggingWidget ∧
    (stepResizing inp c).interactingWidget = c.interactingWidget ∧
    (stepResizing inp c).paletteDragging = c.paletteDragging ∧
    ((stepResizing inp c).resizingWidget = c.resizingWidget ∨
      (stepResizing inp c).resizingWidget = none) := by
  unfold stepResizing
  repeat' split
  all_goals
    first
      | exact ⟨rfl, rfl, rfl, Or.inl rfl⟩
      | exact ⟨rfl, rfl, rfl, Or.inr rfl⟩

theorem stepSingleClick_sessEq (inp : MouseInput) (c : Canvas) :
    sessEq (stepSingleClick inp c) c := by
  unfold stepSingleClick
  repeat' split
  all_goals
    first
      | exact ⟨rfl, rfl, rfl, rfl⟩
      | exact handleWidgetInteraction_sessEq _ _ _

theorem stepRelease_char (inp : MouseInput) (c : Canvas) :
    (stepRelease inp c).paletteDragging = c.paletteDragging ∧
    ((stepRelease inp c).draggingWidget = c.draggingWidget ∨
      (stepRelease inp c).draggingWidget = none) ∧
    ((stepRelease inp c).interactingWidget = c.interactingWidget ∨
      (stepRelease inp c).interactingWidget = none) ∧
    ((stepRelease inp c).resizingWidget = c.resizingWidget ∨
      (stepRelease inp c).resizingWidget = none) := by
  unfold stepRelease
  split
  · refine ⟨?_, ?_, ?_, ?_⟩
    all_goals dsimp only
    all_goals repeat' split
    all_goals
      first
        | rfl
        | exact Or.inr rfl
        | exact (handleWidgetInteraction_sessEq _ _ _).2.2.2
  · exact ⟨rfl, Or.inl rfl, Or.inl rfl, Or.inl rfl⟩

end Canvas2D

namespace Canvas2D

theorem sessionCount_congr {a b : Canvas} (h : sessEq a b) :
    sessionCount a = sessionCount b := by
  unfold sessionCount
  rw [h.1, h.2.1, h.2.2.1, h.2.2.2]

theorem sessionCount_le_of {a b : Canvas}
    (hd : a.draggingWidget = b.draggingWidget ∨ a.draggingWidget = none)
    (hi : a.interactingWidget = b.interactingWidget ∨ a.interactingWidget = none)
    (hr : a.resizingWidget = b.resizingWidget ∨ a.resizingWidget = none)
    (hp : a.paletteDragging = b.paletteDragging ∨ a.paletteDragging = none) :
    sessionCount a ≤ sessionCount b := by
  unfold sessionCount
  rcases hd with hd | hd <;> rcases hi with hi | hi <;> rcases hr with hr | hr <;>
    rcases hp with hp | hp <;>
      simp only [hd, hi, hr, hp, Option.isSome_none, Bool.false_eq_true, if_false] <;>
        omega

theorem opt_some_trace {α : Type} {x y : Option α}
    (h : x = y ∨ x = none) (hs : x.isSome = true) : y.isSome = true := by
  rcases h with rfl | rfl
  · exact hs
  · simp at hs

theorem not_startsNew_of_sessEq {a c : Canvas} (h : sessEq a c) :
    ¬ startsNewSession c a := by
  rintro (⟨h1, h2⟩ | ⟨h1, h2⟩ | ⟨h1, h2⟩ | ⟨h1, h2⟩)
  · rw [h.1, h1] at h2; simp at h2
  · rw [h.2.1, h1] at h2; simp at h2
  · rw [h.2.2.1, h1] at h2; simp at h2
  · rw [h.2.2.2, h1] at h2; simp at h2

theorem sessionCount_eq_zero_of_none {c : Canvas}
    (hd : c.draggingWidget = none) (hi : c.interactingWidget = none)
    (hr : c.resizingWidget = none) (hp : c.paletteDragging = none) :
    sessionCount c = 0 := by
  unfold sessionCount
  simp [hd, hi, hr, hp]

end Canvas2D

namespace Canvas2D

theorem opt_noneOr_trans {α : Type} {x y z : Option α}
    (h1 : x = y ∨ x = none) (h2 : y = z ∨ y = none) : x = z ∨ x = none := by
  rcases h1 with rfl | h1
  · exact h2
  · exact Or.inr h1

theorem sessionCount_le_one_cases {c : Canvas} (hp : c.paletteDragging = none)
    (h : (c.interactingWidget = none ∧ c.resizingWidget = none) ∨
         (c.draggingWidget = none ∧ c.resizingWidget = none) ∨
         (c.draggingWidget = none ∧ c.interactingWidget = none)) :
    sessionCount c ≤ 1 := by
  unfold sessionCount
  rcases h with ⟨h1, h2⟩ | ⟨h1, h2⟩ | ⟨h1, h2⟩ <;>
    simp only [h1, h2, hp, Option.isSome_none, Bool.false_eq_true, if_false] <;>
      split_ifs <;> omega

theorem c3_combine (c c3 cD fin : Canvas)
    (hs3 : sessEq c3 c) (hp3 : c3.paletteDragging = none)
    (hcp : cD.paletteDragging = c3.paletteDragging)
    (hcd : (cD.draggingWidget = c3.draggingWidget ∧
            cD.interactingWidget = c3.interactingWidget ∧
            cD.resizingWidget = c3.resizingWidget) ∨
           (c3.draggingWidget = none ∧ c3.interactingWidget = none ∧
            c3.resizingWidget = none ∧
            ((cD.interactingWidget = none ∧ cD.resizingWidget = none) ∨
             (cD.draggingWidget = none ∧ cD.resizingWidget = none) ∨
             (cD.draggingWidget = none ∧ cD.interactingWidget = none))))
    (hfp : fin.paletteDragging = cD.paletteDragging)
    (hfd : fin.draggingWidget = cD.draggingWidget ∨ fin.draggingWidget = none)
    (hfi : fin.interactingWidget = cD.interactingWidget ∨ fin.interactingWidget = none)
    (hfr : fin.resizingWidget = cD.resizingWidget ∨ fin.resizingWidget = none)
    (hcnt : sessionCount fin ≤ sessionCount cD)
    (h : sessionCount c ≤ 1) :
    sessionCount fin ≤ 1 ∧ (startsNewSession c fin → sessionCount c = 0) := by
  rcases hcd with ⟨hd, hi, hr⟩ | ⟨hd3, hi3, hr3, hdisj⟩
  · have hcnt2 : sessionCount cD = sessionCount c := by
      rw [sessionCount_congr (⟨hd, hi, hr, hcp⟩ : sessEq cD c3), sessionCount_congr hs3]
    constructor
    · omega
    · rintro (⟨h1, h2⟩ | ⟨h1, h2⟩ | ⟨h1, h2⟩ | ⟨h1, h2⟩)
      · have ht := opt_some_trace hfd h2
        rw [hd, hs3.1, h1] at ht; simp at ht
      · have ht := opt_some_trace hfi h2
        rw [hi, hs3.2.1, h1] at ht; simp at ht
      · have ht := opt_some_trace hfr h2
        rw [hr, hs3.2.2.1, h1] at ht; simp at ht
      · rw [hfp, hcp, hp3] at h2; simp at h2
  · have hc0 : sessionCount c = 0 := by
      apply sessionCount_eq_zero_of_none
      · rw [← hs3.1]; exact hd3
      · rw [← hs3.2.1]; exact hi3
      · rw [← hs3.2.2.1]; exact hr3
      · rw [← hs3.2.2.2]; exact hp3
    refine ⟨?_, fun _ => hc0⟩
    have hD1 : sessionCount cD ≤ 1 :=
      sessionCount_le_one_cases (by rw [hcp, hp3]) hdisj
    omega

/-- Claim C3: one `handle_drag_drop` tick preserves the invariant that at
most one of `dragging_widget`, `interacting_widget`, `resizing_widget` and
`palette_dragging` is set, and whenever the tick switches one of the four
from `None` to `Some`, all four were `None` beforehand. -/
theorem c3_single_session (inp : MouseInput) (c : Canvas) (h : sessionCount c ≤ 1) :
    sessionCount (handleDragDrop inp c) ≤ 1 ∧
    (startsNewSession c (handleDragDrop inp c) → sessionCount c = 0) := by
  unfold handleDragDrop
  cases hA : stepClicks inp c with
  | done cA =>
    dsimp only
    have hsA : sessEq cA c := by
      have h0 := stepClicks_state_sessEq inp c
      rw [hA] at h0
      exact h0
    exact ⟨by rw [sessionCount_congr hsA]; exact h,
           fun hn => absurd hn (not_startsNew_of_sessEq hsA)⟩
  | cont cA =>
    dsimp only
    have hsA : sessEq cA c := by
      have h0 := stepClicks_state_sessEq inp c
      rw [hA] at h0
      exact h0
    cases hB : stepPalette inp cA with
    | done cB =>
      dsimp only
      have h0 := stepPalette_state_char inp cA
      rw [hB] at h0
      dsimp only [Flow.state] at h0
      constructor
      · have hle : sessionCount cB ≤ sessionCount cA :=
          sessionCount_le_of (Or.inl h0.1) (Or.inl h0.2.1) (Or.inl h0.2.2.1) h0.2.2.2
        have heq : sessionCount cA = sessionCount c := sessionCount_congr hsA
        omega
      · rintro (⟨h1, h2⟩ | ⟨h1, h2⟩ | ⟨h1, h2⟩ | ⟨h1, h2⟩)
        · rw [h0.1, hsA.1, h1] at h2; simp at h2
        · rw [h0.2.1, hsA.2.1, h1] at h2; simp at h2
        · rw [h0.2.2.1, hsA.2.2.1, h1] at h2; simp at h2
        · have ht : cA.paletteDragging.isSome = true := opt_some_trace h0.2.2.2 h2
          rw [hsA.2.2.2, h1] at ht; simp at ht
    | cont cB =>
      dsimp only
      obtain ⟨hEq, hpal⟩ := stepPalette_cont_inv inp cA cB hB
      subst hEq
      have hs3 : sessEq (stepRightClick inp cB) c :=
        sessEq_trans (stepRightClick_sessEq inp cB) hsA
    
      have hp3 : (stepRightClick inp cB).paletteDragging = none := by
        rw [(stepRightClick_sessEq inp cB).2.2.2, hpal]
      cases hD : stepPressStart inp (stepRightClick inp cB) with
      | done cD =>
        dsimp only
        have h0 := stepPressStart_state_char inp (stepRightClick inp cB)
        rw [hD] at h0
        dsimp only [Flow.state] at h0
        exact c3_combine c (stepRightClick inp cB) cD cD hs3 hp3 h0.1 h0.2
          rfl (Or.inl rfl) (Or.inl rfl) (Or.inl rfl) (Nat.le_refl _) h
      | cont cD =>
        dsimp only
        have h0 := stepPressStart_state_char inp (stepRightClick inp cB)
        rw [hD] at h0
        dsimp only [Flow.state] at h0
        have hE := stepInteracting_char inp cD
        cases hF : stepDragging inp (stepInteracting inp cD) with
        | done cF =>
          dsimp only
          have hFc := stepDragging_state_char inp (stepInteracting inp cD)
          rw [hF] at hFc
          dsimp only [Flow.state] at hFc
          apply c3_combine c (stepRightClick inp cB) cD cF hs3 hp3 h0.1 h0.2
          · rw [hFc.2.2.1, hE.2.2.1]
          · exact opt_noneOr_trans hFc.2.2.2 (hE.1 ▸ Or.inl rfl)
          · exact opt_noneOr_trans (Or.inl hFc.1) hE.2.2.2
          · exact opt_noneOr_trans (Or.inl hFc.2.1) (hE.2.1 ▸ Or.inl rfl)
          · have l1 : sessionCount cF ≤ sessionCount (stepInteracting inp cD) :=
              sessionCount_le_of hFc.2.2.2 (Or.inl hFc.1) (Or.inl hFc.2.1)
                (Or.inl hFc.2.2.1)
            have l2 : sessionCount (stepInteracting inp cD) ≤ sessionCount cD :=
              sessionCount_le_of (Or.inl hE.1) hE.2.2.2 (Or.inl hE.2.1)
                (Or.inl hE.2.2.1)
            omega
          · exact h
        | cont cF =>
          dsimp only
          have hFc := stepDragging_state_char inp (stepInteracting inp cD)
          rw [hF] at hFc
          dsimp only [Flow.state] at hFc
          have hG := stepResizing_char inp cF
          have hH := stepSingleClick_sessEq inp (stepResizing inp cF)
          have hI := stepRelease_char inp (stepSingleClick inp (stepResizing inp cF))
          apply c3_combine c (stepRightClick inp cB) cD
            (stepRelease inp (stepSingleClick inp (stepResizing inp cF))) hs3 hp3
            h0.1 h0.2
          · rw [hI.1, hH.2.2.2, hG.2.2.1, hFc.2.2.1, hE.2.2.1]
          · refine opt_noneOr_trans hI.2.1 ?_
            rw [hH.1, hG.1]
            exact opt_noneOr_trans hFc.2.2.2 (hE.1 ▸ Or.inl rfl)
          · refine opt_noneOr_trans hI.2.2.1 ?_
            rw [hH.2.1, hG.2.1, hFc.1]
            exact hE.2.2.2
          · refine opt_noneOr_trans hI.2.2.2 ?_
            rw [hH.2.2.1]
            refine opt_noneOr_trans hG.2.2.2 ?_
            rw [hFc.2.1, hE.2.1]
            exact Or.inl rfl
          · have l1 : sessionCount (stepRelease inp (stepSingleClick inp (stepResizing inp cF))) ≤
                sessionCount (stepSingleClick inp (stepResizing inp cF)) :=
              sessionCount_le_of hI.2.1 hI.2.2.1 hI.2.2.2 (Or.inl hI.1)
            have l2 : sessionCount (stepSingleClick inp (stepResizing inp cF)) =
                sessionCount (stepResizing inp cF) := sessionCount_congr hH
            have l3 : sessionCount (stepResizing inp cF) ≤ sessionCount cF :=
              sessionCount_le_of (Or.inl hG.1) (Or.inl hG.2.1) hG.2.2.2 (Or.inl hG.2.2.1)
            have l4 : sessionCount cF ≤ sessionCount (stepInteracting inp cD) :=
              sessionCount_le_of hFc.2.2.2 (Or.inl hFc.1) (Or.inl hFc.2.1)
                (Or.inl hFc.2.2.1)
            have l5 : sessionCount (stepInteracting inp cD) ≤ sessionCount cD :=
              sessionCount_le_of (Or.inl hE.1) hE.2.2.2 (Or.inl hE.2.1)
                (Or.inl hE.2.2.1)
            omega
          · exact h

end Canvas2D

namespace Canvas2D

theorem stepClicks_not_pressed (inp : MouseInput) (c : Canvas)
    (hpress : inp.pressed = false) : stepClicks inp c = .cont c := by
  simp [stepClicks, hpress]

theorem stepPalette_no_palette (inp : MouseInput) (c : Canvas)
    (hpal : c.paletteDragging = none) : stepPalette inp c = .cont c := by
  simp [stepPalette, hpal]

theorem stepPressStart_not_pressed (inp : MouseInput) (c : Canvas)
    (hpress : inp.pressed = false) : stepPressStart inp c = .cont c := by
  simp [stepPressStart, hpress]

theorem stepInteracting_widgets_not_held (inp : MouseInput) (c : Canvas)
    (hheld : inp.held = false) : (stepInteracting inp c).widgets = c.widgets := by
  unfold stepInteracting
  split
  · rfl
  · simp [hheld]

theorem stepDragging_not_held_none (inp : MouseInput) (c : Canvas)
    (hd : c.draggingWidget = none) : stepDragging inp c = .cont c := by
  simp [stepDragging, hd]

theorem stepDragging_not_held_some (inp : MouseInput) (c : Canvas) (i : Nat)
    (hheld : inp.held = false) (hd : c.draggingWidget = some i) :
    stepDragging inp c =
      .cont { c with draggingWidget := none, alignmentGuides := [], dragHoverPanel := none } := by
  simp [stepDragging, hd, hheld]

theorem stepResizing_widgets_not_held (inp : MouseInput) (c : Canvas)
    (hheld : inp.held = false) : (stepResizing inp c).widgets = c.widgets := by
  unfold stepResizing
  split
  · rfl
  · simp [hheld]

theorem stepSingleClick_not_pressed (inp : MouseInput) (c : Canvas)
    (hpress : inp.pressed = false) : stepSingleClick inp c = c := by
  simp [stepSingleClick, hpress]

theorem stepRelease_widgets_no_drag (inp : MouseInput) (c : Canvas)
    (hd : c.draggingWidget = none) : (stepRelease inp c).widgets = c.widgets := by
  unfold stepRelease
  split
  · simp [hd]
  · rfl

/-- Claim C1 (amended): the tick that ends a drag (no press, pointer no
longer held, no palette drag) leaves every widget record — positions and
sizes included — unchanged: the release path performs no overlap
resolution, so only the placement routines ever separate widgets. -/
theorem c1_release_frame_amended (inp : MouseInput) (c : Canvas)
    (hpal : c.paletteDragging = none) (hpress : inp.pressed = false)
    (hheld : inp.held = false) :
    (handleDragDrop inp c).widgets = c.widgets := by
  unfold handleDragDrop
  rw [stepClicks_not_pressed inp c hpress]
  dsimp only
  rw [stepPalette_no_palette inp c hpal]
  dsimp only
  rw [stepPressStart_not_pressed inp (stepRightClick inp c) hpress]
  dsimp only
  have hEw : (stepInteracting inp (stepRightClick inp c)).widgets =
      (stepRightClick inp c).widgets :=
    stepInteracting_widgets_not_held inp _ hheld
  have hEd : (stepInteracting inp (stepRightClick inp c)).draggingWidget =
      (stepRightClick inp c).draggingWidget :=
    (stepInteracting_char inp _).1
  cases hd5 : (stepInteracting inp (stepRightClick inp c)).draggingWidget with
  | none =>
    rw [stepDragging_not_held_none inp _ hd5]
    dsimp only
    have hGw := stepResizing_widgets_not_held inp
      (stepInteracting inp (stepRightClick inp c)) hheld
    have hGd := (stepResizing_char inp (stepInteracting inp (stepRightClick inp c))).1
    rw [stepSingleClick_not_pressed inp _ hpress]
    rw [stepRelease_widgets_no_drag inp _ (by rw [hGd, hd5])]
    rw [hGw, hEw, stepRightClick_widgets]
  | some i =>
    rw [stepDragging_not_held_some inp _ i hheld hd5]
    dsimp only
    rw [stepSingleClick_not_pressed inp _ hpress]
    rw [stepRelease_widgets_no_drag inp _ (by rw [(stepResizing_char inp _).1])]
    rw [stepResizing_widgets_not_held inp _ hheld]
    show (stepInteracting inp (stepRightClick inp c)).widgets = c.widgets
    rw [hEw, stepRightClick_widgets]

end Canvas2D

namespace Canvas2D

section
attribute [local semireducible] Rat.add Rat.mul Rat.sub Rat.inv

/-- Claim C1 (counterexample): the drag of knob 0 onto knob 1 ends with a
pointer release that leaves both knobs — visible and in no containment
relation — at the same position, so their 1px-expanded rectangles
intersect after a drag-release. -/
theorem c1_overlap_after_release :
    dragOntoRun.widgets.map DraggableWidget.position = [⟨360, 100⟩, ⟨360, 100⟩] ∧
    dragOntoRun.widgets.map DraggableWidget.size = [⟨104, 124⟩, ⟨104, 124⟩] ∧
    dragOntoRun.widgets.map DraggableWidget.containedList = [[], []] ∧
    dragOntoRun.isWidgetInMinimizedPanel 0 = false ∧
    dragOntoRun.isWidgetInMinimizedPanel 1 = false ∧
    ((Rect.fromMinSize ⟨360, 100⟩ ⟨104, 124⟩).expand 1).intersects
      ((Rect.fromMinSize ⟨360, 100⟩ ⟨104, 124⟩).expand 1) = true := by
  decide

/-- Witness for the amended C1 theorem: the release tick of the two-knob
scenario leaves the widget list unchanged. -/
theorem c1_release_frame_amended_witness :
    (handleDragDrop knobReleaseInp twoKnobStart).widgets = twoKnobStart.widgets :=
  c1_release_frame_amended knobReleaseInp twoKnobStart rfl rfl rfl

/-- Claim C2 (counterexample): one drag-move tick of the contained toggle
clamps its position into the panel's content area and then snaps it onto
the VU meter sitting outside; the resulting toggle rectangle is not inside
the content area even though the toggle is still contained in the panel. -/
theorem c2_snap_escapes_container :
    containedDragRun.widgets.map DraggableWidget.position =
      [⟨303, 301/2⟩, ⟨300, 100⟩, ⟨303, 400⟩] ∧
    containedDragRun.widgets.map DraggableWidget.containedList = [[], [0], []] ∧
    ¬ Rect.containsRect (panelContentArea (Rect.fromMinSize ⟨300, 100⟩ ⟨200, 150⟩))
        (Rect.fromMinSize ⟨303, 301/2⟩ ⟨68, 49⟩) := by
  decide

/-- Witness for the amended C2 theorem: clamping the origin into the
concrete content area of the scenario panel keeps a toggle-sized rectangle
inside it. -/
theorem c2_clamp_amended_witness :
    Rect.containsRect (Rect.fromMinMax ⟨310, 140⟩ ⟨490, 240⟩)
      (Rect.fromMinSize
        (dragClampInto (Rect.fromMinMax ⟨310, 140⟩ ⟨490, 240⟩) ⟨68, 49⟩ ⟨0, 0⟩)
        ⟨68, 49⟩) :=
  c2_clamp_amended (Rect.fromMinMax ⟨310, 140⟩ ⟨490, 240⟩) ⟨68, 49⟩ ⟨0, 0⟩
    (by decide) (by decide)

/-- Witness for the C3 theorem: the press tick on the toggle canvas, whose
session count is 0 ≤ 1. -/
theorem c3_single_session_witness :
    sessionCount (handleDragDrop togglePress toggleStart) ≤ 1 ∧
    (startsNewSession toggleStart (handleDragDrop togglePress toggleStart) →
      sessionCount toggleStart = 0) :=
  c3_single_session togglePress toggleStart (by decide)

/-- Claim C4 (code bug): a press at (310,310) on the toggle at (300,300)
followed by a release at the same point — pointer displacement 0, well
under the 5px click threshold — leaves `on = false`: the click-toggle path
never fires.  The press tick does open a drag session on widget 0, but on
the release frame the pointer is no longer held, so the drag-move block
clears `dragging_widget` (line 906 of the source) before the release block
(lines 967-1019), the only caller of the toggle flip, can read it.  The
position is unchanged, as the spec says, but the toggle is never
inverted. -/
theorem c4_click_toggle_dead :
    (handleDragDrop togglePress toggleStart).draggingWidget = some 0 ∧
    toggleRun.draggingWidget = none ∧
    toggleRun.widgets.map DraggableWidget.widgetType =
      [.ToggleSwitch false "TOGGLE" .Cyan true] ∧
    toggleRun.widgets.map DraggableWidget.position = [⟨300, 300⟩] := by
  decide

/-- Claim C5 (counterexample): three knob spawns on the empty 800×600
canvas land at x = 20, 150, 280 in spawn order: the scan starts at the
top-LEFT corner and steps rightwards, so the positions are not ordered
right-to-left. -/
theorem c5_left_to_right :
    spawnRun.widgets.map DraggableWidget.position =
      [⟨20, 20⟩, ⟨150, 20⟩, ⟨280, 20⟩] ∧
    xStrictlyDecreasing spawnRun.widgets = false := by
  decide

/-- Claim C5 (amended): canvas placement scans candidate positions from the
top-left corner left-to-right, then row by row downwards; the three knob
spawns on the empty 800×600 canvas yield distinct, pairwise non-overlapping
positions on one row ordered left-to-right. -/
theorem c5_spawn_grid :
    spawnRun.widgets.map DraggableWidget.position =
      [⟨20, 20⟩, ⟨150, 20⟩, ⟨280, 20⟩] ∧
    xStrictlyIncreasing spawnRun.widgets = true ∧
    spawnRun.widgets.map DraggableWidget.size =
      [⟨104, 124⟩, ⟨104, 124⟩, ⟨104, 124⟩] ∧
    (Rect.fromMinSize ⟨20, 20⟩ ⟨104, 124⟩).intersects
      (Rect.fromMinSize ⟨150, 20⟩ ⟨104, 124⟩) = false ∧
    (Rect.fromMinSize ⟨150, 20⟩ ⟨104, 124⟩).intersects
      (Rect.fromMinSize ⟨280, 20⟩ ⟨104, 124⟩) = false ∧
    (Rect.fromMinSize ⟨20, 20⟩ ⟨104, 124⟩).intersects
      (Rect.fromMinSize ⟨280, 20⟩ ⟨104, 124⟩) = false := by
  decide

/-- Claim C6 (counterexample): the candidate position (400,500) for the
dragged knob has its x-center within 8px of the level indicator's x-center
(difference 1), yet after `apply_snapping` the center difference is 8, not
0: the later left-edge comparison (difference 7 < 8) overrides the center
snap with edge alignment. -/
theorem c6_edge_overrides_center :
    snapStart.widgets.map DraggableWidget.position = [⟨400, 500⟩, ⟨393, 800⟩] ∧
    snapStart.widgets.map DraggableWidget.size = [⟨104, 124⟩, ⟨120, 40⟩] ∧
    |(400 : Rat) + 104 / 2 - (393 + 120 / 2)| < 8 ∧
    snapStart.applySnapping 0 ⟨400, 500⟩ ⟨104, 124⟩ = ⟨393, 500⟩ ∧
    (393 : Rat) + 104 / 2 - (393 + 120 / 2) ≠ 0 := by
  decide

/-- Witness for the amended C6 theorem: candidate (401,500) against the
level indicator ((|453 − 453| = 0) < 8 at the centers, edge deltas both 8)
snaps to an exact center match. -/
theorem c6_center_snap_amended_witness :
    (snapStart.applySnapping 0 ⟨401, 500⟩ ⟨104, 124⟩).x + (104 : Rat) / 2 =
      (DraggableWidget.new 1 levT ⟨393, 800⟩).position.x +
        (DraggableWidget.new 1 levT ⟨393, 800⟩).size.x / 2 :=
  c6_center_snap_amended snapStart (DraggableWidget.new 0 knobT ⟨400, 500⟩)
    (DraggableWidget.new 1 levT ⟨393, 800⟩) ⟨401, 500⟩ ⟨104, 124⟩ rfl
    (by decide) (by decide) (by decide)

/-- Claim C7 (counterexample): deleting widget 1 through the edit window
removes its record but leaves its id inside panel 0's `contained_widgets`,
so the referential invariant fails after the delete. -/
theorem c7_stale_id_after_delete :
    deleteStart.deleteEditedWidget.widgets.map (fun w => (w.id, w.containedList)) =
      [(0, [1])] ∧
    ¬ containedIdsValid deleteStart.deleteEditedWidget.widgets := by
  decide

/-- Witness for the amended C7 theorem: the concrete panel-plus-toggle
canvas, deleting the contained toggle (index 1, id 1). -/
theorem c7_delete_leaves_dangling_id_witness :
    ¬ containedIdsValid deleteStart.deleteEditedWidget.widgets :=
  c7_delete_leaves_dangling_id deleteStart 1 (DraggableWidget.new 1 togT ⟨60, 100⟩)
    (DraggableWidget.new 0 (.Panel "P" .Cyan 200 150 false [1] false) ⟨50, 50⟩)
    rfl rfl (by decide) (List.mem_cons_self _ _) (List.mem_cons_self _ _)

/-- Witness for the C8 theorem: a create / right-click / delete / clear /
create sequence starting from the empty 800×600 canvas (whose id invariant
holds vacuously). -/
theorem c8_ids_fresh_witness :
    (∀ i ∈ (runOps idOps spawnStart).widgets.map DraggableWidget.id,
        i < (runOps idOps spawnStart).nextId) ∧
    spawnStart.nextId ≤ (runOps idOps spawnStart).nextId ∧
    (∀ i ∈ (runOps idOps spawnStart).widgets.map DraggableWidget.id,
        i ∈ spawnStart.widgets.map DraggableWidget.id ∨ spawnStart.nextId ≤ i) :=
  c8_ids_fresh idOps spawnStart
    (fun i hi => absurd (show i ∈ ([] : List Nat) from hi) (List.not_mem_nil i))

/-- Witness for the C9 theorem: adding a knob while the collapsed panel
(id 5) is selected. -/
theorem c9_collapsed_falls_back_witness :
    collapsedSelStart.addWidgetToSelectedPanel knobT ⟨400, 300⟩ =
      Canvas.addWidget { collapsedSelStart with selectedPanel := none } knobT ⟨400, 300⟩ ∧
    (collapsedSelStart.addWidgetToSelectedPanel knobT ⟨400, 300⟩).selectedPanel = none ∧
    ∃ w, (collapsedSelStart.addWidgetToSelectedPanel knobT ⟨400, 300⟩).widgets =
      collapsedSelStart.widgets ++ [w] :=
  c9_collapsed_falls_back collapsedSelStart knobT ⟨400, 300⟩ 5 0
    (DraggableWidget.new 5 (.Panel "P" .Cyan 200 150 true [] false) ⟨50, 50⟩)
    rfl rfl rfl

end

end Canvas2D
